import Mathlib

/-!
Verification of the real-time speech turn-taking pipeline:
voice-activity segmentation (`src/src/audio/vad_detector.py`),
user profile adaptation (`src/src/audio/user_profile.py`),
and the utterance batcher (`src/src/ai/conversation_manager.py`).

Python floats are modelled as exact rationals (every operation involved is
`+`, `*`, `/`, `max` and comparison on small decimal constants), byte strings
of int16 audio as lists of integer samples (a frame of `n` samples has byte
length `2 * n`), and Python `str` as `List Char`.  Wall-clock reads
(`time.time()`) are passed in explicitly where a loop reads them; the field
`last_speech_end_time`, which is written but never read by any verified
behaviour, is omitted from the detector state.
-/

namespace Shadow

/-! ### Configuration constants — `src/src/audio/audio_config.py` -/

def SAMPLE_RATE : Nat := 16000

def VAD_FRAME_DURATION_MS : Nat := 30

def INITIAL_SILENCE_THRESHOLD : ℚ := 3/2

def THINKING_PAUSE_THRESHOLD : ℚ := 2

def MAX_SILENCE_BEFORE_INTERRUPT : ℚ := 4

def MIN_SPEECH_DURATION : ℚ := 1

def MIN_CALIBRATION_WORDS : Nat := 70

def NORMAL_WORDS_PER_MINUTE : ℚ := 150

/-- `ENERGY_THRESHOLD = 100` — local constant in `VADDetector.process_frame`. -/
def ENERGY_THRESHOLD : Int := 100

/-- `frame_duration = self.frame_duration_ms / 1000.0` (30 ms). -/
def frameDuration : ℚ := (VAD_FRAME_DURATION_MS : ℚ) / 1000

/-! ### VAD detector — `src/src/audio/vad_detector.py` -/

/-- Shape of the pause-info dictionary handed to `PausePattern` by the capture
loop (`audio_stream_manager.py` lines 210-216).  The live `process_frame`
never constructs one (the pause-learning code is commented out). -/
structure PauseInfo where
  duration : ℚ
  location : String
  was_thinking_pause : Bool
deriving DecidableEq, Repr

/-- Mutable state of `VADDetector` as set up in `__init__` (the calibration
fields are commented out in the source and hence absent here as well). -/
structure Detector where
  frame_size : Nat
  is_speaking : Bool
  speech_frames : Nat
  silence_frames : Nat
  total_speech_duration : ℚ
  total_silence_duration : ℚ
  current_silence_threshold : ℚ
  current_thinking_threshold : ℚ
  current_max_silence : ℚ
  in_thinking_mode : Bool
  ring_buffer : List Bool
deriving DecidableEq, Repr

/-- `VADDetector.__init__` (fixed thresholds; empty smoothing buffer). -/
def initDetector : Detector where
  frame_size := SAMPLE_RATE * VAD_FRAME_DURATION_MS / 1000
  is_speaking := false
  speech_frames := 0
  silence_frames := 0
  total_speech_duration := 0
  total_silence_duration := 0
  current_silence_threshold := INITIAL_SILENCE_THRESHOLD
  current_thinking_threshold := THINKING_PAUSE_THRESHOLD
  current_max_silence := MAX_SILENCE_BEFORE_INTERRUPT
  in_thinking_mode := false
  ring_buffer := []

/-- `VADDetector._end_speech`: clear `is_speaking` and report `speech_end`
(the wall-clock write to `last_speech_end_time` is not modelled). -/
def endSpeech (d : Detector) : String × Detector :=
  ("speech_end", { d with is_speaking := false })

/-- The segmentation state machine inside `VADDetector.process_frame`,
lines 147-230: everything after the smoothed speech/silence decision has been
taken.  Input `smoothed` is `smoothed_is_speech`.  Returns the emitted state
string (`none` models Python's `None` fall-through) and the updated state;
the second tuple component of the Python return value (`pause_info`) is
always `None` in the source, so it is produced at the `processFrame` level. -/
def stepMachine (d : Detector) (smoothed : Bool) : Option String × Detector :=
  if smoothed then
    let d := { d with
      silence_frames := 0
      speech_frames := d.speech_frames + 1
      total_speech_duration := d.total_speech_duration + frameDuration }
    if !d.is_speaking then
      (some "speech_start", { d with is_speaking := true, in_thinking_mode := false })
    else
      (some "speech_continue", d)
  else
    let d := { d with
      speech_frames := 0
      silence_frames := d.silence_frames + 1
      total_silence_duration := d.total_silence_duration + frameDuration }
    if d.is_speaking then
      let silence_duration : ℚ := d.silence_frames * frameDuration
      if d.in_thinking_mode then
        if silence_duration > d.current_max_silence then
          let (ev, d) := endSpeech d
          (some ev, d)
        else
          (some "silence", d)
      else if silence_duration > d.current_thinking_threshold then
        if d.total_speech_duration < MIN_SPEECH_DURATION then
          (some "silence", d)
        else
          let (ev, d) := endSpeech d
          (some ev, d)
      else if silence_duration > d.current_silence_threshold then
        if d.total_speech_duration ≥ MIN_SPEECH_DURATION then
          let (ev, d) := endSpeech d
          (some ev, d)
        else
          (some "silence", d)
      else
        (some "silence", d)
    else
      (none, d)

/-- `np.abs` on an int16 sample: `abs(-32768)` wraps back to `-32768`. -/
def absI16 (x : Int) : Int :=
  if x = -32768 then -32768 else |x|

/-- Sum of `np.abs(audio_array)` over a frame. -/
def sumAbs (frame : List Int) : Int :=
  (frame.map absI16).sum

/-- `collections.deque(maxlen=10)`: append right, evict left once full. -/
def pushRing (rb : List Bool) (b : Bool) : List Bool :=
  if rb.length < 10 then rb ++ [b] else rb.tail ++ [b]

/-- Majority vote: `speech_count > len(ring_buffer) / 2` (true float halves). -/
def ringMajority (rb : List Bool) : Bool :=
  2 * (rb.count true) > rb.length

/-- `VADDetector.process_frame`.  `frame` is the list of int16 samples (its
byte length is `2 * frame.length`); `vadSays` is the verdict of the external
`webrtcvad` classifier on this frame, `none` modelling the exception branch.
The source's energy gate `np.abs(audio_array).mean() < ENERGY_THRESHOLD` is
taken in the exact cross-multiplied form `sum < threshold * length`:
equivalent for non-empty frames, and for an empty frame NumPy's `nan < 100`
is false exactly as `0 < 0` is.
Returns the Python pair `(state, pause_info)` plus the updated detector. -/
def processFrame (d : Detector) (frame : List Int) (vadSays : Option Bool) :
    (Option String × Option PauseInfo) × Detector :=
  if 2 * frame.length ≠ d.frame_size * 2 then
    ((none, none), d)
  else
    let quiet : Bool := sumAbs frame < ENERGY_THRESHOLD * frame.length
    let isSpeechRaw : Option Bool := if quiet then some false else vadSays
    match isSpeechRaw with
    | none => ((none, none), d)
    | some is_speech =>
        let rb := pushRing d.ring_buffer is_speech
        let smoothed := ringMajority rb
        let r := stepMachine { d with ring_buffer := rb } smoothed
        ((r.1, none), r.2)

/-- Run the segmentation machine over a sequence of smoothed (classified)
frame decisions, collecting the emitted events. -/
def runMachine (d : Detector) : List Bool → List (Option String) × Detector
  | [] => ([], d)
  | b :: bs =>
      let (ev, d') := stepMachine d b
      let (evs, d'') := runMachine d' bs
      (ev :: evs, d'')

/-- Run `process_frame` over a sequence of raw frames with their external
classifier verdicts, collecting the `(state, pause_info)` results. -/
def runDetector (d : Detector) :
    List (List Int × Option Bool) → List (Option String × Option PauseInfo) × Detector
  | [] => ([], d)
  | (f, v) :: fs =>
      let (r, d') := processFrame d f v
      let (rs, d'') := runDetector d' fs
      (r :: rs, d'')

/-- `VADDetector.enter_thinking_mode`. -/
def enterThinkingMode (d : Detector) : Detector :=
  { d with in_thinking_mode := true }

/-- `VADDetector.exit_thinking_mode`. -/
def exitThinkingMode (d : Detector) : Detector :=
  { d with in_thinking_mode := false }

/-- `VADDetector.adjust_for_more_time`. -/
def adjustForMoreTime (d : Detector) : Detector :=
  { d with
    current_silence_threshold := d.current_silence_threshold * (3/2)
    current_thinking_threshold := d.current_thinking_threshold * (3/2)
    current_max_silence := d.current_max_silence * (3/2) }

/-! ### User profile — `src/src/audio/user_profile.py` -/

/-- `UserSpeechProfile` dataclass, with the source's default field values.
`pause_history` holds the same `{duration, location, was_thinking_pause}`
records as `PauseInfo`. -/
structure UserSpeechProfile where
  user_id : String
  avg_within_sentence_pause : ℚ := 1/2
  avg_between_sentence_pause : ℚ := 1
  avg_thinking_pause : ℚ := 2
  words_per_minute : ℚ := NORMAL_WORDS_PER_MINUTE
  silence_threshold : ℚ := INITIAL_SILENCE_THRESHOLD
  thinking_pause_threshold : ℚ := THINKING_PAUSE_THRESHOLD
  max_silence_before_interrupt : ℚ := MAX_SILENCE_BEFORE_INTERRUPT
  is_calibrated : Bool := false
  calibration_time : ℚ := 0
  total_words_spoken : Nat := 0
  style_summary : Option String := none
  pause_history : List PauseInfo := []
deriving DecidableEq, Repr

/-- `UserProfileManager.add_pause`: append to the history, keep the last 100
(`pause_history[-100:]`). -/
def addPause (p : UserSpeechProfile) (pause : PauseInfo) : UserSpeechProfile :=
  let h := p.pause_history ++ [pause]
  { p with pause_history := if h.length > 100 then h.drop (h.length - 100) else h }

/-- `UserProfileManager.update_statistics`: EMA updates of the per-location
averages followed by the clamped threshold derivation.  A profile with an
empty pause history is returned unchanged (early `return`). -/
def updateStatistics (p : UserSpeechProfile) (learning_rate : ℚ) : UserSpeechProfile :=
  if p.pause_history = [] then p
  else
    let within : List ℚ := (p.pause_history.filter
      (fun r => r.location == "within_sentence")).map (·.duration)
    let between : List ℚ := (p.pause_history.filter
      (fun r => r.location == "between_sentences")).map (·.duration)
    let thinking : List ℚ := (p.pause_history.filter
      (fun r => r.was_thinking_pause)).map (·.duration)
    let p :=
      if within ≠ [] then
        { p with avg_within_sentence_pause :=
            learning_rate * (within.sum / within.length)
              + (1 - learning_rate) * p.avg_within_sentence_pause }
      else p
    let p :=
      if between ≠ [] then
        { p with avg_between_sentence_pause :=
            learning_rate * (between.sum / between.length)
              + (1 - learning_rate) * p.avg_between_sentence_pause }
      else p
    let p :=
      if thinking ≠ [] then
        { p with avg_thinking_pause :=
            learning_rate * (thinking.sum / thinking.length)
              + (1 - learning_rate) * p.avg_thinking_pause }
      else p
    let p := { p with
      silence_threshold := max (p.avg_between_sentence_pause + 1/2) 1 }
    let p := { p with
      thinking_pause_threshold :=
        max (p.avg_thinking_pause * (8/10)) (p.silence_threshold + 1/2) }
    let p := { p with
      max_silence_before_interrupt :=
        max (p.avg_thinking_pause * (3/2)) (p.thinking_pause_threshold + 1) }
    p

/-- `UserProfileManager.update_speaking_rate`. -/
def updateSpeakingRate (p : UserSpeechProfile) (wpm learning_rate : ℚ) :
    UserSpeechProfile :=
  { p with words_per_minute :=
      learning_rate * wpm + (1 - learning_rate) * p.words_per_minute }

/-- `UserProfileManager.reset_calibration`. -/
def resetCalibration (p : UserSpeechProfile) : UserSpeechProfile :=
  { p with
    is_calibrated := false
    calibration_time := 0
    total_words_spoken := 0
    pause_history := [] }

/-- The `recalibrate` command handler in
`AudioStreamManager._transcription_loop` (lines 348-352): reset the
calibration state and reconstruct a fresh `VADDetector` (the speaking-rate
calculator reset touches no state the claims mention). -/
def handleRecalibrate (p : UserSpeechProfile) : UserSpeechProfile × Detector :=
  (resetCalibration p, initDetector)

/-- One profile-mutating call in a session: a statistics update with some
learning rate, or the recording of one pause observation. -/
inductive ProfileOp where
  | updateStats (learning_rate : ℚ)
  | addObs (pause : PauseInfo)
deriving DecidableEq, Repr

/-- Apply one profile operation. -/
def applyProfileOp (p : UserSpeechProfile) : ProfileOp → UserSpeechProfile
  | .updateStats lr => updateStatistics p lr
  | .addObs pause => addPause p pause

/-- Apply a sequence of profile operations, oldest first. -/
def applyProfileOps (p : UserSpeechProfile) (ops : List ProfileOp) : UserSpeechProfile :=
  ops.foldl applyProfileOp p

/-- The configured floors/margins on the derived thresholds
(`update_statistics`, lines 211-224): silence ≥ 1 s, thinking ≥ silence + 0.5,
max-interrupt ≥ thinking + 1. -/
def floorsOK (p : UserSpeechProfile) : Prop :=
  1 ≤ p.silence_threshold ∧
  p.silence_threshold + 1/2 ≤ p.thinking_pause_threshold ∧
  p.thinking_pause_threshold + 1 ≤ p.max_silence_before_interrupt

instance (p : UserSpeechProfile) : Decidable (floorsOK p) := by
  unfold floorsOK; infer_instance

/-! ### Turn-taking batcher — `src/src/ai/conversation_manager.py` -/

/-- `batch_timeout_sentence_end = 0.0`. -/
def batch_timeout_sentence_end : ℚ := 0

/-- `batch_timeout_mid_sentence = 1.2`. -/
def batch_timeout_mid_sentence : ℚ := 6/5

/-- Python's `string.whitespace` characters, as stripped by `str.strip()` /
`str.rstrip()` on the ASCII text this pipeline handles. -/
def pyIsSpace (c : Char) : Bool :=
  c = ' ' ∨ c = '\t' ∨ c = '\n' ∨ c = '\r' ∨ c = '\x0b' ∨ c = '\x0c'

/-- `str.rstrip()`. -/
def pyRstrip (s : List Char) : List Char :=
  (s.reverse.dropWhile pyIsSpace).reverse

/-- `str.strip()`. -/
def pyStrip (s : List Char) : List Char :=
  ((s.dropWhile pyIsSpace).reverse.dropWhile pyIsSpace).reverse

/-- `" ".join(self.utterance_buffer)`. -/
def joinBuffer (buf : List (List Char)) : List Char :=
  List.intercalate [' '] buf

/-- Lines 182-188 of `_batch_sender_loop`:
`last_char = combined_text.rstrip()[-1] if combined_text.strip() else ""`
followed by `last_char in ".!?"`.  Note that when the stripped text is empty
`last_char` is the empty string, and in Python `"" in ".!?"` is `True`. -/
def endsWithSentence (combined : List Char) : Bool :=
  if pyStrip combined = [] then
    true
  else
    match (pyRstrip combined).getLast? with
    | some c => c = '.' ∨ c = '!' ∨ c = '?'
    | none => false

/-- The batcher's shared state: `utterance_buffer` and `last_utterance_time`. -/
structure BatchState where
  utterance_buffer : List (List Char)
  last_utterance_time : ℚ
deriving DecidableEq, Repr

/-- Batcher state at session start (empty buffer, `last_utterance_time = 0`). -/
def initBatch : BatchState :=
  { utterance_buffer := [], last_utterance_time := 0 }

/-- The buffering part of `ConversationManager._on_transcription_received`
(lines 156-159): append the fragment, stamp `last_utterance_time = time.time()`. -/
def onTranscription (s : BatchState) (text : List Char) (now : ℚ) : BatchState :=
  { utterance_buffer := s.utterance_buffer ++ [text]
  , last_utterance_time := now }

/-- One iteration of `ConversationManager._batch_sender_loop` (lines 175-210),
at wall-clock time `now`: emit the flushed combined text, if any, and the
updated state. -/
def pollStep (s : BatchState) (now : ℚ) : Option (List Char) × BatchState :=
  let time_since_last_utterance := now - s.last_utterance_time
  if s.utterance_buffer.length > 0 then
    let combined_text := joinBuffer s.utterance_buffer
    let ends_with_sentence := endsWithSentence combined_text
    let timeout_to_use :=
      if ends_with_sentence then batch_timeout_sentence_end
      else batch_timeout_mid_sentence
    if time_since_last_utterance ≥ timeout_to_use then
      (some combined_text, { utterance_buffer := [], last_utterance_time := 0 })
    else
      (none, s)
  else
    (none, s)

/-- One timed event hitting the batcher: a transcription callback delivering a
fragment, or one poll of the sender loop. -/
inductive BatchEvent where
  | arrive (text : List Char) (now : ℚ)
  | poll (now : ℚ)
deriving DecidableEq, Repr

/-- Run a sequence of batcher events, collecting every flushed text in order. -/
def runBatch (s : BatchState) : List BatchEvent → List (List Char) × BatchState
  | [] => ([], s)
  | .arrive text now :: es => runBatch (onTranscription s text now) es
  | .poll now :: es =>
      let (out, s') := pollStep s now
      let (outs, s'') := runBatch s' es
      (out.toList ++ outs, s'')

/-! ### Cross-module attribute usage — `audio_stream_manager.py` vs the
stripped `vad_detector.py` -/

/-- Every attribute a `VADDetector` instance actually has: the fields bound in
`__init__` (the calibration fields are commented out) plus the method names. -/
def vadDetectorAttrs : List String :=
  ["vad", "sample_rate", "frame_duration_ms", "frame_size",
   "is_speaking", "speech_frames", "silence_frames",
   "total_speech_duration", "total_silence_duration", "last_speech_end_time",
   "current_silence_threshold", "current_thinking_threshold",
   "current_max_silence", "in_thinking_mode", "ring_buffer",
   "process_frame", "_end_speech", "enter_thinking_mode", "exit_thinking_mode",
   "adjust_for_more_time", "reset", "get_speech_duration",
   "get_silence_duration"]

/-- Attributes of `self.vad` that `AudioStreamManager` dereferences:
`start` reads `is_calibrating` (line 155); `_transcription_loop` reads
`is_calibrating` (lines 295, 305, 313, 325, 332) and `calibration_start_time`
(line 317); plus the method calls in both loops. -/
def audioStreamVadAttrReads : List String :=
  ["process_frame", "is_calibrating", "calibration_start_time", "reset",
   "adjust_for_more_time", "enter_thinking_mode", "exit_thinking_mode"]

/-! ## Concrete inputs used in witnesses and counterexamples -/

/-- A concrete loud frame: 480 samples of amplitude 1000 (well above the
energy floor, like close-mic speech). -/
def loudFrame : List Int := List.replicate 480 1000

/-- A concrete quiet frame: 480 zero samples (below the energy floor, so the
classifier forces a silence decision). -/
def quietFrame : List Int := List.replicate 480 0

/-- A fresh detector that has been put into thinking mode
(`enter_thinking_mode` after `__init__`). -/
def thinkingDetector : Detector := enterThinkingMode initDetector

/-- A frame trace: 40 loud speech frames, 55 quiet frames (enough smoothed
silence to cross the 1.5 s threshold and finalize the utterance), then 6 loud
frames (enough to flip the majority vote back to speech). -/
def resumeTrace : List (List Int × Option Bool) :=
  List.replicate 40 (loudFrame, some true) ++
    List.replicate 55 (quietFrame, some false) ++
    List.replicate 6 (loudFrame, some true)

/-! ## Theorems -/

/-- Helper: `speech_start` is only ever emitted by the branch that also clears
`in_thinking_mode` (lines 156-179 of `vad_detector.py`). -/
theorem stepMachine_start_not_thinking (d : Detector) (b : Bool)
    (h : (stepMachine d b).1 = some "speech_start") :
    (stepMachine d b).2.in_thinking_mode = false := by
  cases b <;>
    simp only [stepMachine, endSpeech] at h ⊢ <;>
    repeat' split at h <;> simp_all

/-- C10: whenever `process_frame` returns `speech_start`, the resulting
detector is no longer in thinking mode — detected speech silently cancels
thinking mode without any exit command. -/
theorem processFrame_start_clears_thinking (d : Detector) (frame : List Int)
    (vadSays : Option Bool) :
    ((processFrame d frame vadSays).1).1 = some "speech_start" →
      (processFrame d frame vadSays).2.in_thinking_mode = false := by
  unfold processFrame
  split
  · intro h; exact absurd h (by simp)
  · dsimp only
    split
    · intro h; exact absurd h (by simp)
    · intro h; exact stepMachine_start_not_thinking _ _ h

set_option maxRecDepth 100000 in
/-- C10 witness: a detector in thinking mode receives a loud speech frame;
`speech_start` is returned and thinking mode is off afterwards. -/
theorem processFrame_start_clears_thinking_witness :
    ((processFrame thinkingDetector loudFrame (some true)).1).1
        = some "speech_start" ∧
    (processFrame thinkingDetector loudFrame (some true)).2.in_thinking_mode
        = false :=
  ⟨by decide,
   processFrame_start_clears_thinking thinkingDetector loudFrame (some true)
     (by decide)⟩

/-- C9: a frame whose byte length differs from the expected
`frame_size * 2` bytes is dropped: `process_frame` returns `(None, None)` and
the whole detector state (ring buffer, counters, durations, flags) is
untouched. -/
theorem processFrame_wrong_size (d : Detector) (frame : List Int)
    (vadSays : Option Bool) (h : 2 * frame.length ≠ d.frame_size * 2) :
    processFrame d frame vadSays = ((none, none), d) := by
  unfold processFrame
  rw [if_pos h]

/-- C9 witness: the empty frame (0 bytes ≠ 960 bytes) is dropped by a fresh
detector, which comes back unchanged. -/
theorem processFrame_wrong_size_witness :
    2 * ([] : List Int).length ≠ initDetector.frame_size * 2 ∧
    processFrame initDetector [] (some true) = ((none, none), initDetector) :=
  ⟨by decide, processFrame_wrong_size initDetector [] (some true) (by decide)⟩

/-- C8: `reset_calibration` clears the calibration flag, the calibration
time, the word count and the pause history; it is idempotent; and the
`recalibrate` command pairs the reset profile with a freshly constructed
detector. -/
theorem resetCalibration_clears_and_idempotent (p : UserSpeechProfile) :
    (resetCalibration p).is_calibrated = false ∧
    (resetCalibration p).calibration_time = 0 ∧
    (resetCalibration p).total_words_spoken = 0 ∧
    (resetCalibration p).pause_history = [] ∧
    resetCalibration (resetCalibration p) = resetCalibration p ∧
    handleRecalibrate p = (resetCalibration p, initDetector) :=
  ⟨rfl, rfl, rfl, rfl, rfl, rfl⟩

/-- C7: `AudioStreamManager` dereferences `self.vad.is_calibrating` and
`self.vad.calibration_start_time`, but the stripped `VADDetector` defines
neither attribute (its calibration code is commented out), so the calibration
window logic can never run. -/
theorem calibration_attrs_dangling :
    "is_calibrating" ∈ audioStreamVadAttrReads ∧
    "is_calibrating" ∉ vadDetectorAttrs ∧
    "calibration_start_time" ∈ audioStreamVadAttrReads ∧
    "calibration_start_time" ∉ vadDetectorAttrs := by
  decide

/-- The value `silence_frames * frame_duration` computed by the silence
branch of `process_frame`, where `silence_frames` has just been incremented. -/
def nextSilenceDuration (d : Detector) : ℚ :=
  ((d.silence_frames : ℚ) + 1) * frameDuration

/-- C6: on a silence decision while recording, the finalize conditions are
evaluated in priority order — (a) thinking mode consults only
`max_silence_before_interrupt`; otherwise (b) the thinking-pause threshold
and then (c) the silence threshold are tried, and in both (b) and (c) a
recording with accumulated speech below `MIN_SPEECH_DURATION` yields
`silence` and stays recording even though the silence run is past the
threshold. -/
theorem stepMachine_silence_priority (d : Detector) (h : d.is_speaking = true) :
    (d.in_thinking_mode = true →
      nextSilenceDuration d > d.current_max_silence →
      (stepMachine d false).1 = some "speech_end" ∧
        (stepMachine d false).2.is_speaking = false) ∧
    (d.in_thinking_mode = true →
      ¬ nextSilenceDuration d > d.current_max_silence →
      (stepMachine d false).1 = some "silence" ∧
        (stepMachine d false).2.is_speaking = true) ∧
    (d.in_thinking_mode = false →
      nextSilenceDuration d > d.current_thinking_threshold →
      d.total_speech_duration < MIN_SPEECH_DURATION →
      (stepMachine d false).1 = some "silence" ∧
        (stepMachine d false).2.is_speaking = true) ∧
    (d.in_thinking_mode = false →
      nextSilenceDuration d > d.current_thinking_threshold →
      MIN_SPEECH_DURATION ≤ d.total_speech_duration →
      (stepMachine d false).1 = some "speech_end" ∧
        (stepMachine d false).2.is_speaking = false) ∧
    (d.in_thinking_mode = false →
      ¬ nextSilenceDuration d > d.current_thinking_threshold →
      nextSilenceDuration d > d.current_silence_threshold →
      d.total_speech_duration < MIN_SPEECH_DURATION →
      (stepMachine d false).1 = some "silence" ∧
        (stepMachine d false).2.is_speaking = true) ∧
    (d.in_thinking_mode = false →
      ¬ nextSilenceDuration d > d.current_thinking_threshold →
      nextSilenceDuration d > d.current_silence_threshold →
      MIN_SPEECH_DURATION ≤ d.total_speech_duration →
      (stepMachine d false).1 = some "speech_end" ∧
        (stepMachine d false).2.is_speaking = false) := by
  refine ⟨?_, ?_, ?_, ?_, ?_, ?_⟩
  · intro h1 h2
    simp only [nextSilenceDuration] at h2
    simp only [stepMachine, endSpeech, h, h1, Nat.cast_add, Nat.cast_one]
    rw [if_pos h2]
    exact ⟨rfl, rfl⟩
  · intro h1 h2
    simp only [nextSilenceDuration] at h2
    simp only [stepMachine, endSpeech, h, h1, Nat.cast_add, Nat.cast_one]
    rw [if_neg h2]
    exact ⟨rfl, rfl⟩
  · intro h1 h2 h3
    simp only [nextSilenceDuration] at h2
    simp only [stepMachine, endSpeech, h, h1, Nat.cast_add, Nat.cast_one]
    rw [if_pos h2, if_pos h3]
    exact ⟨rfl, rfl⟩
  · intro h1 h2 h3
    simp only [nextSilenceDuration] at h2
    simp only [stepMachine, endSpeech, h, h1, Nat.cast_add, Nat.cast_one]
    rw [if_pos h2, if_neg (not_lt.mpr h3)]
    exact ⟨rfl, rfl⟩
  · intro h1 h2 h3 h4
    simp only [nextSilenceDuration] at h2 h3
    simp only [stepMachine, endSpeech, h, h1, Nat.cast_add, Nat.cast_one]
    rw [if_neg h2, if_pos h3, if_neg (not_le.mpr h4)]
    exact ⟨rfl, rfl⟩
  · intro h1 h2 h3 h4
    simp only [nextSilenceDuration] at h2 h3
    simp only [stepMachine, endSpeech, h, h1, Nat.cast_add, Nat.cast_one]
    rw [if_neg h2, if_pos h3, if_pos h4]
    exact ⟨rfl, rfl⟩

/-- Detector used to instantiate C6: recording, 70 silence frames so far,
only 0.5 s of accumulated speech (below the 1 s guard). -/
def shortBlipDetector : Detector :=
  { initDetector with
    is_speaking := true
    silence_frames := 70
    total_speech_duration := 1/2 }

/-- C6 witness: with 71 silence frames (2.13 s > thinking threshold 2 s) but
only 0.5 s of speech, the result is `silence` and the state stays
recording. -/
theorem stepMachine_silence_priority_witness :
    (stepMachine shortBlipDetector false).1 = some "silence" ∧
      (stepMachine shortBlipDetector false).2.is_speaking = true :=
  (stepMachine_silence_priority shortBlipDetector rfl).2.2.1 rfl
    (by norm_num [nextSilenceDuration, shortBlipDetector, initDetector,
      frameDuration, VAD_FRAME_DURATION_MS, THINKING_PAUSE_THRESHOLD])
    (by norm_num [shortBlipDetector, initDetector, MIN_SPEECH_DURATION])

/-- Helper: one `update_statistics` call on a profile with a non-empty pause
history always re-derives the thresholds through the `max` clamps, so the
floors hold afterwards whatever the averages and learning rate are. -/
theorem updateStatistics_floors_of_ne (p : UserSpeechProfile) (lr : ℚ)
    (h : p.pause_history ≠ []) : floorsOK (updateStatistics p lr) := by
  unfold updateStatistics
  rw [if_neg h]
  refine ⟨le_max_right _ _, le_max_right _ _, le_max_right _ _⟩

/-- Helper: every single profile operation preserves the threshold floors. -/
theorem floorsOK_applyProfileOp (p : UserSpeechProfile) (op : ProfileOp)
    (h : floorsOK p) : floorsOK (applyProfileOp p op) := by
  cases op with
  | updateStats lr =>
      by_cases he : p.pause_history = []
      · simpa [applyProfileOp, updateStatistics, he] using h
      · exact updateStatistics_floors_of_ne p lr he
  | addObs r => exact h

/-- C3: starting from any profile satisfying the floors, after every prefix
of any sequence of `update_statistics` calls (learning rates in `[0,1]`) and
pause recordings, the derived thresholds satisfy `silence_threshold ≥ 1`,
`thinking_pause_threshold ≥ silence_threshold + 0.5` and
`max_silence_before_interrupt ≥ thinking_pause_threshold + 1`. -/
theorem thresholds_never_below_floors (p : UserSpeechProfile)
    (ops : List ProfileOp) (hp : floorsOK p)
    (hlr : ∀ lr : ℚ, ProfileOp.updateStats lr ∈ ops → 0 ≤ lr ∧ lr ≤ 1) :
    ∀ pre suf : List ProfileOp, ops = pre ++ suf →
      floorsOK (applyProfileOps p pre) := by
  intro pre suf hps
  clear hlr hps
  induction pre generalizing p with
  | nil => exact hp
  | cons o t ih => exact ih _ (floorsOK_applyProfileOp p o hp)

/-- Profile operations used to instantiate C3: record one between-sentences
pause of 4 s, then update with full learning rate. -/
def c3ops : List ProfileOp :=
  [ProfileOp.addObs ⟨4, "between_sentences", true⟩, ProfileOp.updateStats 1]

/-- The profile a new user starts from (`UserSpeechProfile(user_id=...)`). -/
def defaultProfile : UserSpeechProfile := { user_id := "default_user" }

/-- C3 witness: the default profile satisfies the floors, and still does
after recording a long pause and updating with learning rate 1. -/
theorem thresholds_never_below_floors_witness :
    floorsOK (applyProfileOps defaultProfile c3ops) :=
  thresholds_never_below_floors defaultProfile c3ops
    (by constructor
        · norm_num [defaultProfile, floorsOK, INITIAL_SILENCE_THRESHOLD]
        · constructor <;>
            norm_num [defaultProfile, floorsOK, INITIAL_SILENCE_THRESHOLD,
              THINKING_PAUSE_THRESHOLD, MAX_SILENCE_BEFORE_INTERRUPT])
    (by intro lr hm
        simp [c3ops] at hm
        subst hm
        norm_num)
    c3ops [] (by simp)


/-! ### Batcher flush timing (C4, C5) -/

/-- The claim-side reading of "the concatenated text (right-stripped) ends in
`.`, `!`, or `?`": the last character of the right-stripped text is terminal
punctuation.  This differs from the source's `last_char in ".!?"` only on
whitespace-only text, where Python's empty `last_char` is a substring of
`".!?"`. -/
def claimEndsTerminalPunct (t : List Char) : Bool :=
  match (pyRstrip t).getLast? with
  | some c => c = '.' ∨ c = '!' ∨ c = '?'
  | none => false

/-- Helper: elements surviving `dropWhile p` all satisfy `p` exactly when the
whole list does. -/
theorem forall_dropWhile_iff (p : α → Bool) (t : List α) :
    (∀ c ∈ t.dropWhile p, p c = true) ↔ ∀ c ∈ t, p c = true := by
  constructor
  · intro hall c hc
    rw [← List.takeWhile_append_dropWhile (p := p) (l := t)] at hc
    rcases List.mem_append.mp hc with h | h
    · exact List.mem_takeWhile_imp h
    · exact hall c h
  · intro hall c hc
    exact hall c (List.dropWhile_subset p hc)

/-- Helper: `rstrip` empties a string iff it is all whitespace. -/
theorem pyRstrip_eq_nil_iff (t : List Char) :
    pyRstrip t = [] ↔ ∀ c ∈ t, pyIsSpace c = true := by
  unfold pyRstrip
  rw [List.reverse_eq_nil_iff, List.dropWhile_eq_nil_iff]
  simp [List.mem_reverse]

/-- Helper: `strip` empties a string iff it is all whitespace. -/
theorem pyStrip_eq_nil_iff (t : List Char) :
    pyStrip t = [] ↔ ∀ c ∈ t, pyIsSpace c = true := by
  unfold pyStrip
  rw [List.reverse_eq_nil_iff, List.dropWhile_eq_nil_iff]
  constructor
  · intro hall
    rw [← forall_dropWhile_iff pyIsSpace t]
    intro c hc
    exact hall c (List.mem_reverse.mpr hc)
  · intro hall c hc
    exact (forall_dropWhile_iff pyIsSpace t).mpr hall c (List.mem_reverse.mp hc)

/-- Helper: on text that is not all whitespace, the source's
`ends_with_sentence` test agrees with the claim-side reading. -/
theorem endsWithSentence_eq_claim (t : List Char) (h : pyStrip t ≠ []) :
    endsWithSentence t = claimEndsTerminalPunct t := by
  unfold endsWithSentence claimEndsTerminalPunct
  rw [if_neg h]

/-- Helper: text whose right-stripped form ends in terminal punctuation is
not all whitespace. -/
theorem claimEnds_strip_ne (t : List Char)
    (h : claimEndsTerminalPunct t = true) : pyStrip t ≠ [] := by
  intro hs
  have hr : pyRstrip t = [] :=
    (pyRstrip_eq_nil_iff t).mpr ((pyStrip_eq_nil_iff t).mp hs)
  unfold claimEndsTerminalPunct at h
  rw [hr] at h
  simp at h

/-- C4 (amended): with a non-empty buffer, if the combined text (right-
stripped) ends in `.`, `!` or `?` the very next poll flushes it (as soon as
the poll time is not before `last_utterance_time`); if it does not end in
terminal punctuation *and contains a non-whitespace character*, a flush
happens exactly when the elapsed time reaches the 1.2 s mid-thought timeout.
(Whitespace-only buffers are excluded: there Python's `"" in ".!?"` is true
and the code flushes immediately.) -/
theorem pollStep_flush_timing (s : BatchState) (now : ℚ)
    (hb : s.utterance_buffer ≠ []) :
    (claimEndsTerminalPunct (joinBuffer s.utterance_buffer) = true →
      s.last_utterance_time ≤ now →
      pollStep s now = (some (joinBuffer s.utterance_buffer), initBatch)) ∧
    (claimEndsTerminalPunct (joinBuffer s.utterance_buffer) = false →
      pyStrip (joinBuffer s.utterance_buffer) ≠ [] →
      ((pollStep s now).1.isSome ↔
        batch_timeout_mid_sentence ≤ now - s.last_utterance_time)) := by
  constructor
  · intro hpunct hle
    unfold pollStep
    try dsimp only
    rw [if_pos (List.length_pos.mpr hb),
      endsWithSentence_eq_claim _ (claimEnds_strip_ne _ hpunct), hpunct]
    rw [if_pos (by simpa [batch_timeout_sentence_end] using hle)]
    rfl
  · intro hpunct hws
    unfold pollStep
    try dsimp only
    rw [if_pos (List.length_pos.mpr hb), endsWithSentence_eq_claim _ hws,
      hpunct]
    by_cases hel : batch_timeout_mid_sentence ≤ now - s.last_utterance_time
    · rw [if_pos (by simpa using hel)]
      simpa using hel
    · rw [if_neg (by simpa using hel)]
      simpa using hel

/-- Concrete batcher state: one fragment `"Hi."`, stamped at time 10. -/
def punctState : BatchState :=
  { utterance_buffer := [['H', 'i', '.']], last_utterance_time := 10 }

/-- Concrete batcher state: one fragment `"Hi"`, stamped at time 10. -/
def midState : BatchState :=
  { utterance_buffer := [['H', 'i']], last_utterance_time := 10 }

/-- C4 witness: polled half a second after the stamp, `"Hi."` is flushed at
once while `"Hi"` is still held (0.5 s < 1.2 s). -/
theorem pollStep_flush_timing_witness :
    pollStep punctState (21/2) = (some ['H', 'i', '.'], initBatch) ∧
    (pollStep midState (21/2)).1 = none := by
  constructor
  · exact (pollStep_flush_timing punctState (21/2) (by decide)).1 (by decide)
      (by norm_num [punctState])
  · have h2 := (pollStep_flush_timing midState (21/2) (by decide)).2
      (by decide) (by decide)
    have h3 : ¬ (batch_timeout_mid_sentence ≤ (21/2 : ℚ) - midState.last_utterance_time) := by
      norm_num [batch_timeout_mid_sentence, midState]
    exact Option.not_isSome_iff_eq_none.mp (fun hs => h3 (h2.mp hs))

/-- Concrete batcher state: one whitespace-only fragment `" "`, stamped at
time 10. -/
def whitespaceState : BatchState :=
  { utterance_buffer := [[' ']], last_utterance_time := 10 }

/-- C4 counterexample: the combined text `" "` does not end in terminal
punctuation, only 0.5 s < 1.2 s have elapsed, and yet the poll flushes —
Python's empty `last_char` passes the `in ".!?"` test, so the sentence-end
timeout 0 is selected. -/
theorem pollStep_whitespace_early_flush :
    whitespaceState.utterance_buffer ≠ [] ∧
    claimEndsTerminalPunct (joinBuffer whitespaceState.utterance_buffer)
      = false ∧
    (21/2 : ℚ) - whitespaceState.last_utterance_time
      < batch_timeout_mid_sentence ∧
    (pollStep whitespaceState (21/2)).1 = some [' '] := by
  refine ⟨by decide, by decide,
    by norm_num [whitespaceState, batch_timeout_mid_sentence], ?_⟩
  unfold pollStep
  try dsimp only
  rw [if_pos (by decide)]
  have hends : endsWithSentence (joinBuffer whitespaceState.utterance_buffer)
      = true := by decide
  rw [hends]
  rw [if_pos (by norm_num [whitespaceState, batch_timeout_sentence_end])]
  decide

/-- C2 (amended): the live `process_frame` never reports a pause — the
`pause_info` component of its return value is `None` on every path. -/
theorem processFrame_pause_info_none (d : Detector) (frame : List Int)
    (vadSays : Option Bool) : ((processFrame d frame vadSays).1).2 = none := by
  unfold processFrame
  split
  · rfl
  · dsimp only
    split <;> rfl

/-! ### C1: one utterance — exactly one `speech_start` and one `speech_end` -/

/-- The detector states reachable while the machine segments one utterance
from a fresh start: `initDetector` with the speaking flag, the two frame
counters and the two accumulated durations varying (the thresholds stay at
their initial values and thinking mode stays off). -/
def recState (speaking : Bool) (sp sf : Nat) (tsp tsl : ℚ) : Detector :=
  { initDetector with
    is_speaking := speaking
    speech_frames := sp
    silence_frames := sf
    total_speech_duration := tsp
    total_silence_duration := tsl }

/-- A classified-frame sequence making up one spoken turn: `a` leading
silence frames, a first speech run of `s0` frames, then `pairs` of
(sub-threshold silence gap, speech run), then `k` trailing silence frames. -/
def c1input (a s0 : Nat) (pairs : List (Nat × Nat)) (k : Nat) : List Bool :=
  List.replicate a false ++ List.replicate s0 true ++
    pairs.flatMap
      (fun p => List.replicate p.1 false ++ List.replicate p.2 true) ++
    List.replicate k false

/-- Total speech frames contributed by the gap/speech pairs. -/
def sumSnd (pairs : List (Nat × Nat)) : Nat :=
  (pairs.map Prod.snd).sum

/-- `runMachine` distributes over concatenation of the input. -/
theorem runMachine_append (xs ys : List Bool) (d : Detector) :
    runMachine d (xs ++ ys) =
      ((runMachine d xs).1 ++ (runMachine (runMachine d xs).2 ys).1,
        (runMachine (runMachine d xs).2 ys).2) := by
  induction xs generalizing d with
  | nil => simp [runMachine]
  | cons b bs ih =>
      simp only [List.cons_append, runMachine, List.append_eq, ih]

/-- A speech frame in the idle state: `speech_start`, counters reset. -/
theorem step_speech_idle (sp sf : Nat) (tsp tsl : ℚ) :
    stepMachine (recState false sp sf tsp tsl) true =
      (some "speech_start",
        recState true (sp + 1) 0 (tsp + frameDuration) tsl) := rfl

/-- A speech frame while recording: `speech_continue`. -/
theorem step_speech_cont (sp sf : Nat) (tsp tsl : ℚ) :
    stepMachine (recState true sp sf tsp tsl) true =
      (some "speech_continue",
        recState true (sp + 1) 0 (tsp + frameDuration) tsl) := rfl

/-- A silence frame in the idle state: no event. -/
theorem step_silence_idle (sp sf : Nat) (tsp tsl : ℚ) :
    stepMachine (recState false sp sf tsp tsl) false =
      (none, recState false 0 (sf + 1) tsp (tsl + frameDuration)) := rfl

/-- A silence frame while recording, below the silence threshold:
`silence`, state stays recording. -/
theorem step_silence_rec (sp sf : Nat) (tsp tsl : ℚ)
    (h : ((sf : ℚ) + 1) * frameDuration ≤ INITIAL_SILENCE_THRESHOLD) :
    stepMachine (recState true sp sf tsp tsl) false =
      (some "silence", recState true 0 (sf + 1) tsp (tsl + frameDuration)) := by
  have hfd : ((sf : ℚ) + 1) * frameDuration ≤ 3/2 := by
    simpa [INITIAL_SILENCE_THRESHOLD] using h
  have h2 : ¬ (((sf : ℚ) + 1) * frameDuration > THINKING_PAUSE_THRESHOLD) := by
    rw [THINKING_PAUSE_THRESHOLD]
    intro hlt
    linarith
  have h15 : ¬ (((sf : ℚ) + 1) * frameDuration > INITIAL_SILENCE_THRESHOLD) := by
    rw [INITIAL_SILENCE_THRESHOLD]
    intro hlt
    linarith
  unfold stepMachine
  simp only [recState, initDetector, Nat.cast_add, Nat.cast_one]
  rw [if_neg h2, if_neg h15]
  rfl

/-- The 51st consecutive silence frame while recording (1.53 s of silence,
past the 1.5 s threshold but not the 2 s thinking threshold), with at least
`MIN_SPEECH_DURATION` of accumulated speech: `speech_end`. -/
theorem step_silence_end (sp sf : Nat) (tsp tsl : ℚ)
    (hgt : INITIAL_SILENCE_THRESHOLD < ((sf : ℚ) + 1) * frameDuration)
    (hle : ((sf : ℚ) + 1) * frameDuration ≤ THINKING_PAUSE_THRESHOLD)
    (hmin : MIN_SPEECH_DURATION ≤ tsp) :
    stepMachine (recState true sp sf tsp tsl) false =
      (some "speech_end",
        recState false 0 (sf + 1) tsp (tsl + frameDuration)) := by
  have h2 : ¬ (((sf : ℚ) + 1) * frameDuration > THINKING_PAUSE_THRESHOLD) :=
    not_lt.mpr hle
  have h15 : ((sf : ℚ) + 1) * frameDuration > INITIAL_SILENCE_THRESHOLD := hgt
  unfold stepMachine
  simp only [recState, initDetector, Nat.cast_add, Nat.cast_one]
  rw [if_neg h2, if_pos h15, if_pos hmin]
  rfl

/-- A run of `n` speech frames while recording: `n` `speech_continue`
events. -/
theorem run_speech_cont (n : Nat) : ∀ (sp : Nat) (tsp tsl : ℚ),
    runMachine (recState true sp 0 tsp tsl) (List.replicate n true) =
      (List.replicate n (some "speech_continue"),
        recState true (sp + n) 0 (tsp + n * frameDuration) tsl) := by
  induction n with
  | zero => intro sp tsp tsl; simp [runMachine]
  | succ n ih =>
      intro sp tsp tsl
      rw [List.replicate_succ]
      simp only [runMachine, step_speech_cont]
      rw [ih]
      rw [List.replicate_succ]
      have h1 : sp + 1 + n = sp + (n + 1) := by omega
      have h2 : tsp + frameDuration + (n : ℚ) * frameDuration
          = tsp + ((n : ℚ) + 1) * frameDuration := by ring
      rw [h1, h2]
      norm_num

/-- A run of `n` silence frames in the idle state: no events. -/
theorem run_silence_idle (n : Nat) : ∀ (sf : Nat) (tsp tsl : ℚ),
    runMachine (recState false 0 sf tsp tsl) (List.replicate n false) =
      (List.replicate n none,
        recState false 0 (sf + n) tsp (tsl + n * frameDuration)) := by
  induction n with
  | zero => intro sf tsp tsl; simp [runMachine]
  | succ n ih =>
      intro sf tsp tsl
      rw [List.replicate_succ]
      simp only [runMachine, step_silence_idle]
      rw [ih]
      rw [List.replicate_succ]
      have h1 : sf + 1 + n = sf + (n + 1) := by omega
      have h2 : tsl + frameDuration + (n : ℚ) * frameDuration
          = tsl + ((n : ℚ) + 1) * frameDuration := by ring
      rw [h1, h2]
      norm_num

/-- A run of `g` silence frames while recording that never brings the
silence run past the 1.5 s threshold: `g` `silence` events, still
recording. -/
theorem run_silence_rec (g : Nat) : ∀ (sf : Nat) (tsp tsl : ℚ),
    ((sf : ℚ) + g) * frameDuration ≤ INITIAL_SILENCE_THRESHOLD →
    runMachine (recState true 0 sf tsp tsl) (List.replicate g false) =
      (List.replicate g (some "silence"),
        recState true 0 (sf + g) tsp (tsl + g * frameDuration)) := by
  induction g with
  | zero => intro sf tsp tsl hg; simp [runMachine]
  | succ g ih =>
      intro sf tsp tsl hg
      have hfd : (0 : ℚ) ≤ frameDuration := by
        norm_num [frameDuration, VAD_FRAME_DURATION_MS]
      have hstep : ((sf : ℚ) + 1) * frameDuration ≤ INITIAL_SILENCE_THRESHOLD := by
        have : ((sf : ℚ) + 1) * frameDuration
            ≤ ((sf : ℚ) + (g + 1 : Nat)) * frameDuration := by
          have : ((sf : ℚ) + 1) ≤ ((sf : ℚ) + (g + 1 : Nat)) := by
            push_cast
            linarith [Nat.cast_nonneg (α := ℚ) g]
          exact mul_le_mul_of_nonneg_right this hfd
        linarith [hg]
      rw [List.replicate_succ]
      simp only [runMachine, step_silence_rec 0 sf tsp tsl hstep]
      rw [ih (sf + 1) tsp (tsl + frameDuration) (by push_cast; push_cast at hg; linarith)]
      rw [List.replicate_succ]
      have h1 : sf + 1 + g = sf + (g + 1) := by omega
      have h2 : tsl + frameDuration + (g : ℚ) * frameDuration
          = tsl + ((g : ℚ) + 1) * frameDuration := by ring
      rw [h1, h2]
      norm_num

/-- Variant of `run_silence_rec` for an arbitrary incoming
`speech_frames` count (the first silence frame zeroes it). -/
theorem run_silence_rec' (g sp sf : Nat) (tsp tsl : ℚ)
    (hg : ((sf : ℚ) + g) * frameDuration ≤ INITIAL_SILENCE_THRESHOLD) :
    ∃ sp' : Nat,
      runMachine (recState true sp sf tsp tsl) (List.replicate g false) =
        (List.replicate g (some "silence"),
          recState true sp' (sf + g) tsp (tsl + g * frameDuration)) := by
  cases g with
  | zero =>
      refine ⟨sp, ?_⟩
      simp [runMachine]
  | succ g =>
      refine ⟨0, ?_⟩
      have hfd : (0 : ℚ) ≤ frameDuration := by
        norm_num [frameDuration, VAD_FRAME_DURATION_MS]
      have hstep : ((sf : ℚ) + 1) * frameDuration
          ≤ INITIAL_SILENCE_THRESHOLD := by
        have hm : ((sf : ℚ) + 1) * frameDuration
            ≤ ((sf : ℚ) + (g + 1 : Nat)) * frameDuration := by
          have : ((sf : ℚ) + 1) ≤ ((sf : ℚ) + (g + 1 : Nat)) := by
            push_cast
            linarith [Nat.cast_nonneg (α := ℚ) g]
          exact mul_le_mul_of_nonneg_right this hfd
        linarith [hg]
      rw [List.replicate_succ]
      simp only [runMachine, step_silence_rec sp sf tsp tsl hstep]
      rw [run_silence_rec g (sf + 1) tsp (tsl + frameDuration)
        (by push_cast; push_cast at hg; linarith)]
      rw [List.replicate_succ]
      have h1 : sf + 1 + g = sf + (g + 1) := by omega
      have h2 : tsl + frameDuration + (g : ℚ) * frameDuration
          = tsl + ((g : ℚ) + 1) * frameDuration := by ring
      rw [h1, h2]
      norm_num

/-- Running the machine through any number of (sub-threshold gap, speech run)
pairs keeps it recording, accumulates exactly the speech frames of the pairs
into `total_speech_duration`, and emits no `speech_start` and no
`speech_end`. -/
theorem run_pairs (pairs : List (Nat × Nat)) : ∀ (sp : Nat) (tsp tsl : ℚ),
    (∀ p ∈ pairs,
      (p.1 : ℚ) * frameDuration < INITIAL_SILENCE_THRESHOLD ∧ 1 ≤ p.2) →
    ∃ (evs : List (Option String)) (sp' : Nat) (tsl' : ℚ),
      runMachine (recState true sp 0 tsp tsl)
          (pairs.flatMap
            (fun p => List.replicate p.1 false ++ List.replicate p.2 true)) =
        (evs,
          recState true sp' 0
            (tsp + (sumSnd pairs : ℚ) * frameDuration) tsl') ∧
      evs.count (some "speech_start") = 0 ∧
      evs.count (some "speech_end") = 0 := by
  induction pairs with
  | nil =>
      intro sp tsp tsl _
      refine ⟨[], sp, tsl, ?_, rfl, rfl⟩
      simp [runMachine, sumSnd]
  | cons p rest ih =>
      intro sp tsp tsl hall
      obtain ⟨hgap, hsp⟩ := hall p (List.mem_cons_self p rest)
      obtain ⟨t, ht⟩ : ∃ t, p.2 = t + 1 := ⟨p.2 - 1, by omega⟩
      have hfd : (0 : ℚ) ≤ frameDuration := by
        norm_num [frameDuration, VAD_FRAME_DURATION_MS]
      -- the gap block
      obtain ⟨spg, hrun_gap⟩ := run_silence_rec' p.1 sp 0 tsp tsl
        (by push_cast; linarith [hgap])
      -- decompose the input of this pair
      rw [List.flatMap_cons, List.append_assoc]
      rw [runMachine_append]
      rw [hrun_gap]
      rw [runMachine_append]
      -- the speech block: one continue step then a continue run
      rw [ht, List.replicate_succ]
      simp only [runMachine, step_speech_cont]
      rw [run_speech_cont t (spg + 1) (tsp + frameDuration)
        (tsl + p.1 * frameDuration)]
      -- the remaining pairs
      obtain ⟨evs', sp'', tsl'', hrun_rest, hc1, hc2⟩ :=
        ih (spg + 1 + t) (tsp + frameDuration + (t : ℚ) * frameDuration)
          (tsl + p.1 * frameDuration)
          (fun q hq => hall q (List.mem_cons_of_mem p hq))
      rw [hrun_rest]
      refine ⟨List.replicate p.1 (some "silence") ++
          (some "speech_continue" :: List.replicate t (some "speech_continue")
            ++ evs'), sp'', tsl'', ?_, ?_, ?_⟩
      · have harith : tsp + frameDuration + (t : ℚ) * frameDuration
            + (sumSnd rest : ℚ) * frameDuration
            = tsp + (sumSnd (p :: rest) : ℚ) * frameDuration := by
          have hsum : sumSnd (p :: rest) = p.2 + sumSnd rest := by
            simp [sumSnd]
          rw [hsum, ht]
          push_cast
          ring
        rw [harith]
      · simp [List.count_append, List.count_replicate, List.count_cons, hc1]
      · simp [List.count_append, List.count_replicate, List.count_cons, hc2]

/-- C1: from a fresh detector, any classified-frame sequence made of leading
silence, a speech run interleaved with sub-threshold silence gaps totalling
at least `MIN_SPEECH_DURATION` of speech, and a closing silence run exceeding
the active silence threshold, produces exactly one `speech_start` and exactly
one `speech_end`. -/
theorem vad_one_start_one_end (a s0 k : Nat) (pairs : List (Nat × Nat))
    (hs0 : 1 ≤ s0)
    (hpairs : ∀ p ∈ pairs,
      (p.1 : ℚ) * frameDuration < INITIAL_SILENCE_THRESHOLD ∧ 1 ≤ p.2)
    (hmin : MIN_SPEECH_DURATION
      ≤ ((s0 : ℚ) + (sumSnd pairs : ℚ)) * frameDuration)
    (hk : INITIAL_SILENCE_THRESHOLD < (k : ℚ) * frameDuration) :
    (runMachine initDetector (c1input a s0 pairs k)).1.count
        (some "speech_start") = 1 ∧
    (runMachine initDetector (c1input a s0 pairs k)).1.count
        (some "speech_end") = 1 := by
  have hΔ : frameDuration = 3/100 := by
    norm_num [frameDuration, VAD_FRAME_DURATION_MS]
  have hk51 : 51 ≤ k := by
    by_contra hlt
    push_neg at hlt
    have hk50 : (k : ℚ) ≤ 50 := by
      have : k ≤ 50 := by omega
      exact_mod_cast this
    rw [hΔ, INITIAL_SILENCE_THRESHOLD] at hk
    linarith
  obtain ⟨m, hm⟩ : ∃ m, k = 50 + (1 + m) := ⟨k - 51, by omega⟩
  obtain ⟨t0, ht0⟩ : ∃ t0, s0 = t0 + 1 := ⟨s0 - 1, by omega⟩
  have hinit : initDetector = recState false 0 0 0 0 := rfl
  unfold c1input
  rw [List.append_assoc, List.append_assoc]
  rw [hinit, runMachine_append, run_silence_idle a 0 0 0]
  try dsimp only
  rw [runMachine_append]
  try dsimp only
  rw [ht0, List.replicate_succ]
  simp only [runMachine, step_speech_idle]
  try dsimp only
  rw [run_speech_cont t0 (0 + 1) (0 + frameDuration) (0 + a * frameDuration)]
  try dsimp only
  rw [runMachine_append]
  try dsimp only
  obtain ⟨evs2, sp2, tsl2, hrun2, hc2s, hc2e⟩ :=
    run_pairs pairs (0 + 1 + t0)
      (0 + frameDuration + (t0 : ℚ) * frameDuration)
      (0 + a * frameDuration) hpairs
  rw [hrun2]
  try dsimp only
  rw [hm, List.replicate_add, List.replicate_add, runMachine_append]
  try dsimp only
  obtain ⟨sp3, hrun3⟩ := run_silence_rec' 50 sp2 0
    (0 + frameDuration + (t0 : ℚ) * frameDuration
      + (sumSnd pairs : ℚ) * frameDuration) tsl2
    (by rw [hΔ, INITIAL_SILENCE_THRESHOLD]; norm_num)
  rw [Nat.cast_ofNat] at hrun3
  rw [hrun3]
  try dsimp only
  rw [List.replicate_one, runMachine_append]
  try dsimp only
  have hmin' : MIN_SPEECH_DURATION
      ≤ 0 + frameDuration + (t0 : ℚ) * frameDuration
        + (sumSnd pairs : ℚ) * frameDuration := by
    have hs0q : (s0 : ℚ) = (t0 : ℚ) + 1 := by
      rw [ht0]; push_cast; ring
    rw [hs0q] at hmin
    calc MIN_SPEECH_DURATION
        ≤ ((t0 : ℚ) + 1 + (sumSnd pairs : ℚ)) * frameDuration := hmin
      _ = 0 + frameDuration + (t0 : ℚ) * frameDuration
            + (sumSnd pairs : ℚ) * frameDuration := by ring
  have hstep_end := step_silence_end sp3 (0 + 50)
    (0 + frameDuration + (t0 : ℚ) * frameDuration
      + (sumSnd pairs : ℚ) * frameDuration)
    (tsl2 + 50 * frameDuration)
    (by rw [hΔ, INITIAL_SILENCE_THRESHOLD]; push_cast; norm_num)
    (by rw [hΔ, THINKING_PAUSE_THRESHOLD]; push_cast; norm_num)
    hmin'
  simp only [runMachine, hstep_end]
  try dsimp only
  rw [run_silence_idle m (0 + 50 + 1)
    (0 + frameDuration + (t0 : ℚ) * frameDuration
      + (sumSnd pairs : ℚ) * frameDuration)
    ((tsl2 + 50 * frameDuration) + frameDuration)]
  try dsimp only
  constructor <;>
    simp [List.count_append, List.count_replicate, List.count_cons,
      hc2s, hc2e]

/-- C1 witness: 2 leading silence frames, a 34-frame speech run, one 0.3 s
gap followed by 10 more speech frames (1.32 s of speech in total), then 60
silence frames (1.8 s > 1.5 s): exactly one `speech_start` and one
`speech_end`. -/
theorem vad_one_start_one_end_witness :
    (runMachine initDetector (c1input 2 34 [(10, 10)] 60)).1.count
        (some "speech_start") = 1 ∧
    (runMachine initDetector (c1input 2 34 [(10, 10)] 60)).1.count
        (some "speech_end") = 1 :=
  vad_one_start_one_end 2 34 60 [(10, 10)] (by norm_num)
    (by
      intro p hp
      simp only [List.mem_singleton] at hp
      subst hp
      refine ⟨?_, by norm_num⟩
      norm_num [frameDuration, VAD_FRAME_DURATION_MS,
        INITIAL_SILENCE_THRESHOLD])
    (by norm_num [sumSnd, MIN_SPEECH_DURATION, frameDuration,
      VAD_FRAME_DURATION_MS])
    (by norm_num [INITIAL_SILENCE_THRESHOLD, frameDuration,
      VAD_FRAME_DURATION_MS])

/-! ### C5: one flush per batched turn -/

/-- A fragment containing at least one non-whitespace character. -/
def hasNonWS (f : List Char) : Bool :=
  f.any (fun c => !pyIsSpace c)

/-- A fragment shaped like the mid-thought transcriptions of the claim:
some real content, no terminal punctuation at the end. -/
def goodFrag (f : List Char) : Prop :=
  hasNonWS f = true ∧ claimEndsTerminalPunct f = false

instance (f : List Char) : Decidable (goodFrag f) := by
  unfold goodFrag; infer_instance

/-- `rstrip` of text that is not all whitespace is non-empty. -/
theorem pyRstrip_ne_nil (b : List Char) (hb : hasNonWS b = true) :
    pyRstrip b ≠ [] := by
  intro hnil
  obtain ⟨c, hc, hcp⟩ := List.any_eq_true.mp hb
  exact absurd ((pyRstrip_eq_nil_iff b).mp hnil c hc) (by simpa using hcp)

/-- `strip` of text that is not all whitespace is non-empty. -/
theorem pyStrip_ne_nil (b : List Char) (hb : hasNonWS b = true) :
    pyStrip b ≠ [] := by
  intro hnil
  obtain ⟨c, hc, hcp⟩ := List.any_eq_true.mp hb
  exact absurd ((pyStrip_eq_nil_iff b).mp hnil c hc) (by simpa using hcp)

/-- `rstrip` only touches the text after the last non-whitespace character. -/
theorem pyRstrip_append (a b : List Char) (hb : hasNonWS b = true) :
    pyRstrip (a ++ b) = a ++ pyRstrip b := by
  unfold pyRstrip
  rw [List.reverse_append, List.dropWhile_append]
  have hne : b.reverse.dropWhile pyIsSpace ≠ [] := by
    rw [Ne, List.dropWhile_eq_nil_iff]
    intro hall
    obtain ⟨c, hc, hcp⟩ := List.any_eq_true.mp hb
    exact absurd (hall c (List.mem_reverse.mpr hc)) (by simpa using hcp)
  rw [if_neg (by simpa using hne)]
  rw [List.reverse_append, List.reverse_reverse]

/-- Appending in front of text with real content does not change whether it
ends in terminal punctuation. -/
theorem claimEnds_append (a b : List Char) (hb : hasNonWS b = true) :
    claimEndsTerminalPunct (a ++ b) = claimEndsTerminalPunct b := by
  unfold claimEndsTerminalPunct
  rw [pyRstrip_append a b hb, List.getLast?_append]
  rcases hgl : (pyRstrip b).getLast? with _ | c
  · exact absurd (List.getLast?_eq_none_iff.mp hgl) (pyRstrip_ne_nil b hb)
  · rfl

/-- Text with real content somewhere still has real content after an
append on either side. -/
theorem hasNonWS_append_right (a b : List Char) (hb : hasNonWS b = true) :
    hasNonWS (a ++ b) = true := by
  unfold hasNonWS at hb ⊢
  rw [List.any_append, hb, Bool.or_true]

/-- `" ".join` of a two-or-more-element buffer, from the front. -/
theorem joinBuffer_cons_cons (x y : List Char) (rest : List (List Char)) :
    joinBuffer (x :: y :: rest) = x ++ ([' '] ++ joinBuffer (y :: rest)) := by
  simp [joinBuffer, List.intercalate, List.intersperse]

/-- `" ".join` of a singleton buffer. -/
theorem joinBuffer_singleton (x : List Char) : joinBuffer [x] = x := by
  simp [joinBuffer, List.intercalate, List.intersperse]

/-- The combined text of a non-empty buffer of good fragments has real
content and does not end in terminal punctuation. -/
theorem joinBuffer_facts (frags : List (List Char)) (hne : frags ≠ [])
    (hall : ∀ f ∈ frags, goodFrag f) :
    hasNonWS (joinBuffer frags) = true ∧
      claimEndsTerminalPunct (joinBuffer frags) = false := by
  induction frags with
  | nil => exact absurd rfl hne
  | cons x rest ih =>
      cases rest with
      | nil =>
          rw [joinBuffer_singleton]
          exact hall x (List.mem_cons_self x [])
      | cons y rest' =>
          obtain ⟨hj1, hj2⟩ := ih (by simp)
            (fun f hf => hall f (List.mem_cons_of_mem x hf))
          have hj1' : hasNonWS ([' '] ++ joinBuffer (y :: rest')) = true :=
            hasNonWS_append_right _ _ hj1
          rw [joinBuffer_cons_cons]
          constructor
          · exact hasNonWS_append_right _ _ hj1'
          · rw [claimEnds_append _ _ hj1']
            rw [show ([' '] ++ joinBuffer (y :: rest'))
                = [' '] ++ joinBuffer (y :: rest') from rfl]
            rw [claimEnds_append [' '] _ hj1]
            exact hj2

/-- The source's sentence-end test on the combined text of a non-empty
buffer of good fragments is false. -/
theorem endsWithSentence_join (frags : List (List Char)) (hne : frags ≠ [])
    (hall : ∀ f ∈ frags, goodFrag f) :
    endsWithSentence (joinBuffer frags) = false := by
  obtain ⟨h1, h2⟩ := joinBuffer_facts frags hne hall
  rw [endsWithSentence_eq_claim _ (pyStrip_ne_nil _ h1)]
  exact h2

/-- A poll before the mid-thought timeout of a non-empty good buffer
neither flushes nor changes the state. -/
theorem pollStep_noflush (s : BatchState) (now : ℚ)
    (hne : s.utterance_buffer ≠ [])
    (hend : endsWithSentence (joinBuffer s.utterance_buffer) = false)
    (hel : now - s.last_utterance_time < batch_timeout_mid_sentence) :
    pollStep s now = (none, s) := by
  unfold pollStep
  dsimp only
  rw [if_pos (List.length_pos.mpr hne), hend]
  simp only [Bool.false_eq_true, if_false]
  rw [if_neg (not_le.mpr hel)]

/-- A poll at or past the mid-thought timeout of a non-empty good buffer
flushes the combined text and resets the batcher. -/
theorem pollStep_flush (s : BatchState) (now : ℚ)
    (hne : s.utterance_buffer ≠ [])
    (hend : endsWithSentence (joinBuffer s.utterance_buffer) = false)
    (hel : batch_timeout_mid_sentence ≤ now - s.last_utterance_time) :
    pollStep s now = (some (joinBuffer s.utterance_buffer), initBatch) := by
  unfold pollStep
  dsimp only
  rw [if_pos (List.length_pos.mpr hne), hend]
  simp only [Bool.false_eq_true, if_false]
  rw [if_pos hel]
  rfl

/-- `runBatch` distributes over concatenation of the events. -/
theorem runBatch_append (es fs : List BatchEvent) (s : BatchState) :
    runBatch s (es ++ fs) =
      ((runBatch s es).1 ++ (runBatch (runBatch s es).2 fs).1,
        (runBatch (runBatch s es).2 fs).2) := by
  induction es generalizing s with
  | nil => simp [runBatch]
  | cons e es ih =>
      cases e with
      | arrive text now =>
          simp only [List.cons_append, runBatch, List.append_eq, ih]
      | poll now => simp only [List.cons_append, runBatch, List.append_eq,
          List.append_assoc, ih]

/-- Polls before the timeout leave a non-empty good buffer untouched and
flush nothing. -/
theorem runBatch_polls_noflush (ts : List ℚ) (s : BatchState)
    (hne : s.utterance_buffer ≠ [])
    (hend : endsWithSentence (joinBuffer s.utterance_buffer) = false)
    (hts : ∀ t ∈ ts, t - s.last_utterance_time < batch_timeout_mid_sentence) :
    runBatch s (ts.map BatchEvent.poll) = ([], s) := by
  induction ts with
  | nil => simp [runBatch]
  | cons t ts ih =>
      simp only [List.map_cons, runBatch]
      rw [pollStep_noflush s t hne hend (hts t (List.mem_cons_self t ts))]
      rw [ih (fun u hu => hts u (List.mem_cons_of_mem t hu))]
      rfl

/-- Polls on an empty buffer do nothing, whatever their times. -/
theorem runBatch_polls_empty (ts : List ℚ) (s : BatchState)
    (hbe : s.utterance_buffer = []) :
    runBatch s (ts.map BatchEvent.poll) = ([], s) := by
  induction ts with
  | nil => simp [runBatch]
  | cons t ts ih =>
      simp only [List.map_cons, runBatch]
      have hp : pollStep s t = (none, s) := by
        unfold pollStep
        dsimp only
        rw [if_neg (by simp [hbe])]
      rw [hp, ih]
      rfl

/-- A batching session's arrival schedule: each entry is one transcribed
fragment, the time it was appended, and the times of the sender-loop polls
that happen before the next arrival. -/
def schedEvents (sched : List (List Char × ℚ × List ℚ)) : List BatchEvent :=
  sched.flatMap
    (fun ar => BatchEvent.arrive ar.1 ar.2.1 :: ar.2.2.map BatchEvent.poll)

/-- Running a whole arrival schedule whose fragments are good and whose
polls all come before the mid-thought timeout flushes nothing and leaves
every fragment in the buffer in arrival order, stamped with the last
arrival time. -/
theorem runBatch_sched (sched : List (List Char × ℚ × List ℚ)) :
    ∀ s : BatchState,
    (∀ f ∈ s.utterance_buffer, goodFrag f) →
    (∀ ar ∈ sched, goodFrag ar.1 ∧
      ∀ t ∈ ar.2.2, t - ar.2.1 < batch_timeout_mid_sentence) →
    runBatch s (schedEvents sched) =
      ([], { utterance_buffer :=
               s.utterance_buffer ++ sched.map (fun ar => ar.1)
           , last_utterance_time :=
               (sched.map (fun ar => ar.2.1)).getLastD
                 s.last_utterance_time }) := by
  induction sched with
  | nil =>
      intro s hgood hsched
      simp [schedEvents, runBatch]
  | cons ar rest ih =>
      intro s hgood hsched
      obtain ⟨harfrag, harpolls⟩ := hsched ar (List.mem_cons_self ar rest)
      have hse : schedEvents (ar :: rest) =
          (BatchEvent.arrive ar.1 ar.2.1 :: ar.2.2.map BatchEvent.poll) ++
            schedEvents rest := by
        rw [schedEvents, schedEvents, List.flatMap_cons]
      rw [hse, List.cons_append]
      simp only [runBatch]
      have hgood1 : ∀ f ∈ (onTranscription s ar.1 ar.2.1).utterance_buffer,
          goodFrag f := by
        intro f hf
        rcases List.mem_append.mp hf with h | h
        · exact hgood f h
        · rw [List.mem_singleton.mp h]
          exact harfrag
      have hne1 : (onTranscription s ar.1 ar.2.1).utterance_buffer ≠ [] := by
        simp [onTranscription]
      rw [runBatch_append]
      rw [runBatch_polls_noflush ar.2.2 (onTranscription s ar.1 ar.2.1) hne1
        (endsWithSentence_join _ hne1 hgood1) harpolls]
      dsimp only
      rw [ih (onTranscription s ar.1 ar.2.1) hgood1
        (fun q hq => hsched q (List.mem_cons_of_mem ar hq))]
      simp only [onTranscription, List.map_cons, List.getLastD_cons,
        List.append_assoc, List.singleton_append, List.nil_append]

/-- C5 (amended): any number of fragments, each with real content and none
ending in terminal punctuation, arriving at any times with all intermediate
polls before the mid-thought timeout, followed by a poll at or past the
timeout and then any further polls: exactly one flush occurs, it carries all
fragments concatenated in arrival order, and the buffer is empty from then
on. -/
theorem batcher_single_flush (sched : List (List Char × ℚ × List ℚ))
    (T : ℚ) (post : List ℚ)
    (hne : sched ≠ [])
    (hsched : ∀ ar ∈ sched, goodFrag ar.1 ∧
      ∀ t ∈ ar.2.2, t - ar.2.1 < batch_timeout_mid_sentence)
    (hT : batch_timeout_mid_sentence
      ≤ T - (sched.map (fun ar => ar.2.1)).getLastD 0) :
    (runBatch initBatch
        (schedEvents sched ++
          (BatchEvent.poll T :: post.map BatchEvent.poll))).1
      = [joinBuffer (sched.map (fun ar => ar.1))] ∧
    (runBatch initBatch
        (schedEvents sched ++
          (BatchEvent.poll T :: post.map BatchEvent.poll))).2.utterance_buffer
      = [] := by
  rw [runBatch_append]
  rw [runBatch_sched sched initBatch (by simp [initBatch]) hsched]
  have hbuf_ne : ([] : List (List Char)) ++ sched.map (fun ar => ar.1) ≠ [] := by
    simp [hne]
  have hgoodall : ∀ f ∈ ([] : List (List Char)) ++ sched.map (fun ar => ar.1),
      goodFrag f := by
    intro f hf
    simp only [List.nil_append, List.mem_map] at hf
    obtain ⟨ar, har, rfl⟩ := hf
    exact (hsched ar har).1
  simp only [runBatch]
  rw [pollStep_flush _ T hbuf_ne
    (endsWithSentence_join _ hbuf_ne hgoodall) (by simpa [initBatch] using hT)]
  rw [runBatch_polls_empty post initBatch rfl]
  simp [initBatch]

/-- Schedule used to instantiate C5: `"hi"` at t = 0 with a poll at 0.5,
`"yo"` at t = 0.3 with a poll at 0.6, the flushing poll at t = 2 and one
trailing poll at t = 3. -/
def c5sched : List (List Char × ℚ × List ℚ) :=
  [(['h', 'i'], 0, [1/2]), (['y', 'o'], 3/10, [3/5])]

/-- C5 witness: the two-fragment schedule produces exactly the single flush
`"hi yo"` and leaves the buffer empty. -/
theorem batcher_single_flush_witness :
    (runBatch initBatch
        (schedEvents c5sched ++
          (BatchEvent.poll 2 :: [(3 : ℚ)].map BatchEvent.poll))).1
      = [joinBuffer (c5sched.map (fun ar => ar.1))] ∧
    (runBatch initBatch
        (schedEvents c5sched ++
          (BatchEvent.poll 2 :: [(3 : ℚ)].map BatchEvent.poll))).2.utterance_buffer
      = [] :=
  batcher_single_flush c5sched 2 [3] (by simp [c5sched])
    (by
      intro ar har
      simp only [c5sched, List.mem_cons, List.not_mem_nil, or_false] at har
      rcases har with rfl | rfl
      · refine ⟨by decide, ?_⟩
        intro t ht
        simp only [List.mem_singleton] at ht
        subst ht
        norm_num [batch_timeout_mid_sentence]
      · refine ⟨by decide, ?_⟩
        intro t ht
        simp only [List.mem_singleton] at ht
        subst ht
        norm_num [batch_timeout_mid_sentence])
    (by
      simp only [c5sched, List.map_cons, List.map_nil, List.getLastD_cons,
        List.getLastD_nil]
      norm_num [batch_timeout_mid_sentence])

/-- A poll of a non-empty buffer whose combined text passes the source's
sentence-end test (which includes whitespace-only text) flushes as soon as
the poll is not before the stamp. -/
theorem pollStep_flush_now (s : BatchState) (now : ℚ)
    (hne : s.utterance_buffer ≠ [])
    (hends : endsWithSentence (joinBuffer s.utterance_buffer) = true)
    (hel : s.last_utterance_time ≤ now) :
    pollStep s now = (some (joinBuffer s.utterance_buffer), initBatch) := by
  unfold pollStep
  dsimp only
  rw [if_pos (List.length_pos.mpr hne), hends]
  rw [if_pos rfl]
  rw [if_pos (show batch_timeout_sentence_end ≤ now - s.last_utterance_time by
    rw [batch_timeout_sentence_end]; linarith)]
  rfl

/-- The event sequence refuting C5 as stated: two whitespace-only fragments
(neither ends in terminal punctuation), a poll in between at 0.1 s, and the
final poll after the timeout. -/
def c5badEvents : List BatchEvent :=
  [BatchEvent.arrive [' '] 0, BatchEvent.poll (1/10),
   BatchEvent.arrive [' '] (3/10), BatchEvent.poll 2]

/-- C5 counterexample: the fragments do not end in terminal punctuation and
the final silence exceeds the mid-thought timeout, yet the run flushes
twice, not once — each intermediate poll flushes the whitespace-only buffer
immediately. -/
theorem batcher_double_flush_whitespace :
    claimEndsTerminalPunct [' '] = false ∧
    batch_timeout_mid_sentence ≤ (2 : ℚ) - (3/10) ∧
    (runBatch initBatch c5badEvents).1 = [[' '], [' ']] := by
  refine ⟨by decide, by norm_num [batch_timeout_mid_sentence], ?_⟩
  have h1 : pollStep (onTranscription initBatch [' '] 0) (1/10)
      = (some [' '], initBatch) := by
    have hj : joinBuffer (onTranscription initBatch [' '] 0).utterance_buffer
        = [' '] := by decide
    have := pollStep_flush_now (onTranscription initBatch [' '] 0) (1/10)
      (by decide) (by rw [hj]; decide)
      (by norm_num [onTranscription, initBatch])
    rw [hj] at this
    exact this
  have h2 : pollStep (onTranscription initBatch [' '] (3/10)) 2
      = (some [' '], initBatch) := by
    have hj : joinBuffer
        (onTranscription initBatch [' '] (3/10)).utterance_buffer = [' '] := by
      decide
    have := pollStep_flush_now (onTranscription initBatch [' '] (3/10)) 2
      (by decide) (by rw [hj]; decide)
      (by norm_num [onTranscription, initBatch])
    rw [hj] at this
    exact this
  show (runBatch initBatch c5badEvents).1 = [[' '], [' ']]
  rw [c5badEvents]
  simp only [runBatch]
  rw [h1]
  dsimp only
  rw [h2]
  rfl

/-! ### C2: the resume-after-pause transition reports no pause -/

/-- Detector state during a run of `process_frame` calls: `recState` plus
the smoothing ring buffer. -/
def pfState (rb : List Bool) (speaking : Bool) (sp sf : Nat) (tsp tsl : ℚ) :
    Detector :=
  { recState speaking sp sf tsp tsl with ring_buffer := rb }

/-- The segmentation machine ignores and preserves the ring buffer. -/
theorem stepMachine_ring (d : Detector) (rb : List Bool) (b : Bool) :
    stepMachine { d with ring_buffer := rb } b =
      ((stepMachine d b).1, { (stepMachine d b).2 with ring_buffer := rb }) := by
  unfold stepMachine endSpeech
  dsimp only
  split_ifs <;> rfl

/-- The loud frame carries 480 samples. -/
theorem loudFrame_length : loudFrame.length = 480 := by
  unfold loudFrame
  rw [List.length_replicate]

/-- The quiet frame carries 480 samples. -/
theorem quietFrame_length : quietFrame.length = 480 := by
  unfold quietFrame
  rw [List.length_replicate]

/-- Mean-energy numerator of the loud frame. -/
theorem sumAbs_loudFrame : sumAbs loudFrame = 480000 := by
  unfold sumAbs loudFrame
  rw [List.map_replicate, List.sum_replicate]
  norm_num [absI16, nsmul_eq_mul]

/-- Mean-energy numerator of the quiet frame. -/
theorem sumAbs_quietFrame : sumAbs quietFrame = 0 := by
  unfold sumAbs quietFrame
  rw [List.map_replicate, List.sum_replicate]
  norm_num [absI16]

/-- `process_frame` on a loud frame the external classifier calls speech:
push `true` into the ring, take the majority vote, run the machine. -/
theorem pf_loud (rb : List Bool) (sa : Bool) (sp sf : Nat) (tsp tsl : ℚ) :
    processFrame (pfState rb sa sp sf tsp tsl) loudFrame (some true) =
      (((stepMachine (recState sa sp sf tsp tsl)
            (ringMajority (pushRing rb true))).1, none),
        { (stepMachine (recState sa sp sf tsp tsl)
            (ringMajority (pushRing rb true))).2
          with ring_buffer := pushRing rb true }) := by
  unfold processFrame
  rw [if_neg (by
    rw [loudFrame_length]
    norm_num [pfState, recState, initDetector, SAMPLE_RATE,
      VAD_FRAME_DURATION_MS])]
  dsimp only
  rw [if_neg (by
    rw [sumAbs_loudFrame, loudFrame_length]
    norm_num [ENERGY_THRESHOLD])]
  dsimp only
  rw [show (pfState rb sa sp sf tsp tsl).ring_buffer = rb from rfl]
  rw [show ({ pfState rb sa sp sf tsp tsl with
        ring_buffer := pushRing rb true } : Detector)
      = { recState sa sp sf tsp tsl with
          ring_buffer := pushRing rb true } from rfl]
  rw [stepMachine_ring]

/-- `process_frame` on a quiet frame: the energy gate forces a silence
decision whatever the external classifier would say. -/
theorem pf_quiet (rb : List Bool) (sa : Bool) (sp sf : Nat) (tsp tsl : ℚ)
    (v : Option Bool) :
    processFrame (pfState rb sa sp sf tsp tsl) quietFrame v =
      (((stepMachine (recState sa sp sf tsp tsl)
            (ringMajority (pushRing rb false))).1, none),
        { (stepMachine (recState sa sp sf tsp tsl)
            (ringMajority (pushRing rb false))).2
          with ring_buffer := pushRing rb false }) := by
  unfold processFrame
  rw [if_neg (by
    rw [quietFrame_length]
    norm_num [pfState, recState, initDetector, SAMPLE_RATE,
      VAD_FRAME_DURATION_MS])]
  dsimp only
  rw [if_pos (by
    rw [sumAbs_quietFrame, quietFrame_length]
    norm_num [ENERGY_THRESHOLD])]
  dsimp only
  rw [show (pfState rb sa sp sf tsp tsl).ring_buffer = rb from rfl]
  rw [show ({ pfState rb sa sp sf tsp tsl with
        ring_buffer := pushRing rb false } : Detector)
      = { recState sa sp sf tsp tsl with
          ring_buffer := pushRing rb false } from rfl]
  rw [stepMachine_ring]

/-- `runDetector` distributes over concatenation of the frame sequence. -/
theorem runDetector_append (xs ys : List (List Int × Option Bool))
    (d : Detector) :
    runDetector d (xs ++ ys) =
      ((runDetector d xs).1 ++ (runDetector (runDetector d xs).2 ys).1,
        (runDetector (runDetector d xs).2 ys).2) := by
  induction xs generalizing d with
  | nil => simp [runDetector]
  | cons fv xs ih =>
      obtain ⟨f, v⟩ := fv
      simp only [List.cons_append, runDetector, List.append_eq, ih]

/-- Folding a record update of `recState` back into `pfState`. -/
theorem recState_ring (rb : List Bool) (sa : Bool) (sp sf : Nat)
    (tsp tsl : ℚ) :
    ({ recState sa sp sf tsp tsl with ring_buffer := rb } : Detector)
      = pfState rb sa sp sf tsp tsl := rfl

/-- Pushing onto a non-full ring of equal entries. -/
theorem pushRing_replicate_lt (j : Nat) (hj : j < 10) (b : Bool) :
    pushRing (List.replicate j b) b = List.replicate (j + 1) b := by
  unfold pushRing
  rw [if_pos (by simpa using hj), ← List.replicate_succ']

/-- An all-speech ring votes speech. -/
theorem ringMajority_replicate_true (j : Nat) (hj : 1 ≤ j) :
    ringMajority (List.replicate j true) = true := by
  unfold ringMajority
  simp [List.count_replicate, List.length_replicate]
  omega

/-- A run of loud speech frames on a saturated all-speech ring. -/
theorem run_loud_sat (n : Nat) : ∀ (sp : Nat) (tsp tsl : ℚ),
    runDetector (pfState (List.replicate 10 true) true sp 0 tsp tsl)
        (List.replicate n (loudFrame, some true)) =
      (List.replicate n (some "speech_continue", (none : Option PauseInfo)),
        pfState (List.replicate 10 true) true (sp + n) 0
          (tsp + n * frameDuration) tsl) := by
  induction n with
  | zero =>
      intro sp tsp tsl
      simp [runDetector]
  | succ n ih =>
      intro sp tsp tsl
      rw [show List.replicate (n + 1) ((loudFrame, some true) :
            List Int × Option Bool)
          = (loudFrame, some true) :: List.replicate n (loudFrame, some true)
          from rfl]
      simp only [runDetector, pf_loud]
      rw [show pushRing (List.replicate 10 true) true
          = List.replicate 10 true from by decide]
      rw [show ringMajority (List.replicate 10 true) = true from by decide]
      rw [step_speech_cont]
      dsimp only
      rw [recState_ring, ih (sp + 1)]
      rw [show List.replicate (n + 1) ((some "speech_continue", none) :
            Option String × Option PauseInfo)
          = (some "speech_continue", none) ::
              List.replicate n (some "speech_continue", none) from rfl]
      have h1 : sp + 1 + n = sp + (n + 1) := by omega
      have h2 : tsp + frameDuration + (n : ℚ) * frameDuration
          = tsp + ((n : ℚ) + 1) * frameDuration := by ring
      rw [h1, h2]
      norm_num

/-- A run of loud speech frames that fills up the smoothing ring. -/
theorem run_loud_growth (m : Nat) : ∀ (j sp : Nat) (tsp tsl : ℚ),
    1 ≤ j → j + m ≤ 10 →
    runDetector (pfState (List.replicate j true) true sp 0 tsp tsl)
        (List.replicate m (loudFrame, some true)) =
      (List.replicate m (some "speech_continue", (none : Option PauseInfo)),
        pfState (List.replicate (j + m) true) true (sp + m) 0
          (tsp + m * frameDuration) tsl) := by
  induction m with
  | zero =>
      intro j sp tsp tsl hj hjm
      simp [runDetector]
  | succ m ih =>
      intro j sp tsp tsl hj hjm
      rw [show List.replicate (m + 1) ((loudFrame, some true) :
            List Int × Option Bool)
          = (loudFrame, some true) :: List.replicate m (loudFrame, some true)
          from rfl]
      simp only [runDetector, pf_loud]
      rw [pushRing_replicate_lt j (by omega) true]
      rw [ringMajority_replicate_true (j + 1) (by omega)]
      rw [step_speech_cont]
      dsimp only
      rw [recState_ring, ih (j + 1) (sp + 1) _ _ (by omega) (by omega)]
      rw [show List.replicate (m + 1) ((some "speech_continue", none) :
            Option String × Option PauseInfo)
          = (some "speech_continue", none) ::
              List.replicate m (some "speech_continue", none) from rfl]
      have h0 : j + 1 + m = j + (m + 1) := by omega
      have h1 : sp + 1 + m = sp + (m + 1) := by omega
      have h2 : tsp + frameDuration + (m : ℚ) * frameDuration
          = tsp + ((m : ℚ) + 1) * frameDuration := by ring
      rw [h0, h1, h2]
      norm_num

/-- A run of quiet frames while recording on an all-silence ring, staying
below the silence threshold. -/
theorem run_quiet_rec (n : Nat) : ∀ (sf : Nat) (tsp tsl : ℚ),
    ((sf : ℚ) + n) * frameDuration ≤ INITIAL_SILENCE_THRESHOLD →
    runDetector (pfState (List.replicate 10 false) true 0 sf tsp tsl)
        (List.replicate n (quietFrame, some false)) =
      (List.replicate n (some "silence", (none : Option PauseInfo)),
        pfState (List.replicate 10 false) true 0 (sf + n) tsp
          (tsl + n * frameDuration)) := by
  induction n with
  | zero =>
      intro sf tsp tsl hn
      simp [runDetector]
  | succ n ih =>
      intro sf tsp tsl hn
      have hfd : (0 : ℚ) ≤ frameDuration := by
        norm_num [frameDuration, VAD_FRAME_DURATION_MS]
      have hstep : ((sf : ℚ) + 1) * frameDuration
          ≤ INITIAL_SILENCE_THRESHOLD := by
        have hmono : ((sf : ℚ) + 1) * frameDuration
            ≤ ((sf : ℚ) + (n + 1 : Nat)) * frameDuration := by
          have : ((sf : ℚ) + 1) ≤ ((sf : ℚ) + (n + 1 : Nat)) := by
            push_cast
            linarith [Nat.cast_nonneg (α := ℚ) n]
          exact mul_le_mul_of_nonneg_right this hfd
        linarith [hn]
      rw [show List.replicate (n + 1) ((quietFrame, some false) :
            List Int × Option Bool)
          = (quietFrame, some false) ::
              List.replicate n (quietFrame, some false) from rfl]
      simp only [runDetector, pf_quiet]
      rw [show pushRing (List.replicate 10 false) false
          = List.replicate 10 false from by decide]
      rw [show ringMajority (List.replicate 10 false) = false from by decide]
      rw [step_silence_rec 0 sf tsp tsl hstep]
      dsimp only
      rw [recState_ring, ih (sf + 1) tsp (tsl + frameDuration)
        (by push_cast; push_cast at hn; linarith)]
      rw [show List.replicate (n + 1) ((some "silence", none) :
            Option String × Option PauseInfo)
          = (some "silence", none) ::
              List.replicate n (some "silence", none) from rfl]
      have h1 : sf + 1 + n = sf + (n + 1) := by omega
      have h2 : tsl + frameDuration + (n : ℚ) * frameDuration
          = tsl + ((n : ℚ) + 1) * frameDuration := by ring
      rw [h1, h2]
      norm_num

/-- `initDetector` in `pfState` form. -/
theorem initDetector_pfState : initDetector = pfState [] false 0 0 0 0 := rfl

/-- First loud frame from a fresh (empty-ring, idle) state: `speech_start`. -/
theorem c2_istep (sp sf : Nat) (tsp tsl : ℚ) :
    processFrame (pfState [] false sp sf tsp tsl) loudFrame (some true) =
      ((some "speech_start", (none : Option PauseInfo)),
        pfState (List.replicate 1 true) true (sp + 1) 0
          (tsp + frameDuration) tsl) := by
  rw [pf_loud]
  rw [show pushRing [] true = [true] from by decide]
  rw [show ringMajority [true] = true from by decide]
  rw [step_speech_idle]
  dsimp only
  rw [recState_ring]
  rfl

/-- Quiet frame 1 after a long speech run: the ring still votes speech. -/
theorem c2_qstep1 (sp : Nat) (tsp tsl : ℚ) :
    processFrame (pfState (List.replicate 10 true) true sp 0 tsp tsl)
        quietFrame (some false) =
      ((some "speech_continue", (none : Option PauseInfo)),
        pfState [true, true, true, true, true, true, true, true, true, false] true (sp + 1) 0
          (tsp + frameDuration) tsl) := by
  rw [pf_quiet]
  rw [show pushRing (List.replicate 10 true) false
      = [true, true, true, true, true, true, true, true, true, false]
      from by decide]
  rw [show ringMajority [true, true, true, true, true, true, true, true, true, false] = true from by decide]
  rw [step_speech_cont]
  dsimp only
  rw [recState_ring]

/-- Quiet frame 2 after a long speech run: the ring still votes speech. -/
theorem c2_qstep2 (sp : Nat) (tsp tsl : ℚ) :
    processFrame (pfState [true, true, true, true, true, true, true, true, true, false] true sp 0 tsp tsl)
        quietFrame (some false) =
      ((some "speech_continue", (none : Option PauseInfo)),
        pfState [true, true, true, true, true, true, true, true, false, false] true (sp + 1) 0
          (tsp + frameDuration) tsl) := by
  rw [pf_quiet]
  rw [show pushRing [true, true, true, true, true, true, true, true, true, false] false
      = [true, true, true, true, true, true, true, true, false, false] from by decide]
  rw [show ringMajority [true, true, true, true, true, true, true, true, false, false] = true from by decide]
  rw [step_speech_cont]
  dsimp only
  rw [recState_ring]

/-- Quiet frame 3 after a long speech run: the ring still votes speech. -/
theorem c2_qstep3 (sp : Nat) (tsp tsl : ℚ) :
    processFrame (pfState [true, true, true, true, true, true, true, true, false, false] true sp 0 tsp tsl)
        quietFrame (some false) =
      ((some "speech_continue", (none : Option PauseInfo)),
        pfState [true, true, true, true, true, true, true, false, false, false] true (sp + 1) 0
          (tsp + frameDuration) tsl) := by
  rw [pf_quiet]
  rw [show pushRing [true, true, true, true, true, true, true, true, false, false] false
      = [true, true, true, true, true, true, true, false, false, false] from by decide]
  rw [show ringMajority [true, true, true, true, true, true, true, false, false, false] = true from by decide]
  rw [step_speech_cont]
  dsimp only
  rw [recState_ring]

/-- Quiet frame 4 after a long speech run: the ring still votes speech. -/
theorem c2_qstep4 (sp : Nat) (tsp tsl : ℚ) :
    processFrame (pfState [true, true, true, true, true, true, true, false, false, false] true sp 0 tsp tsl)
        quietFrame (some false) =
      ((some "speech_continue", (none : Option PauseInfo)),
        pfState [true, true, true, true, true, true, false, false, false, false] true (sp + 1) 0
          (tsp + frameDuration) tsl) := by
  rw [pf_quiet]
  rw [show pushRing [true, true, true, true, true, true, true, false, false, false] false
      = [true, true, true, true, true, true, false, false, false, false] from by decide]
  rw [show ringMajority [true, true, true, true, true, true, false, false, false, false] = true from by decide]
  rw [step_speech_cont]
  dsimp only
  rw [recState_ring]

/-- Quiet frame 5: the ring now votes silence (silence frame 1). -/
theorem c2_qstep5 (sp : Nat) (tsp tsl : ℚ) :
    processFrame (pfState [true, true, true, true, true, true, false, false, false, false] true sp 0 tsp tsl)
        quietFrame (some false) =
      ((some "silence", (none : Option PauseInfo)),
        pfState [true, true, true, true, true, false, false, false, false, false] true 0 1 tsp
          (tsl + frameDuration)) := by
  rw [pf_quiet]
  rw [show pushRing [true, true, true, true, true, true, false, false, false, false] false
      = [true, true, true, true, true, false, false, false, false, false] from by decide]
  rw [show ringMajority [true, true, true, true, true, false, false, false, false, false] = false from by decide]
  rw [step_silence_rec sp 0 tsp tsl (by
    norm_num [frameDuration, VAD_FRAME_DURATION_MS,
      INITIAL_SILENCE_THRESHOLD])]
  dsimp only
  rw [recState_ring]

/-- Quiet frame 6: the ring now votes silence (silence frame 2). -/
theorem c2_qstep6 (sp : Nat) (tsp tsl : ℚ) :
    processFrame (pfState [true, true, true, true, true, false, false, false, false, false] true sp 1 tsp tsl)
        quietFrame (some false) =
      ((some "silence", (none : Option PauseInfo)),
        pfState [true, true, true, true, false, false, false, false, false, false] true 0 2 tsp
          (tsl + frameDuration)) := by
  rw [pf_quiet]
  rw [show pushRing [true, true, true, true, true, false, false, false, false, false] false
      = [true, true, true, true, false, false, false, false, false, false] from by decide]
  rw [show ringMajority [true, true, true, true, false, false, false, false, false, false] = false from by decide]
  rw [step_silence_rec sp 1 tsp tsl (by
    norm_num [frameDuration, VAD_FRAME_DURATION_MS,
      INITIAL_SILENCE_THRESHOLD])]
  dsimp only
  rw [recState_ring]

/-- Quiet frame 7: the ring now votes silence (silence frame 3). -/
theorem c2_qstep7 (sp : Nat) (tsp tsl : ℚ) :
    processFrame (pfState [true, true, true, true, false, false, false, false, false, false] true sp 2 tsp tsl)
        quietFrame (some false) =
      ((some "silence", (none : Option PauseInfo)),
        pfState [true, true, true, false, false, false, false, false, false, false] true 0 3 tsp
          (tsl + frameDuration)) := by
  rw [pf_quiet]
  rw [show pushRing [true, true, true, true, false, false, false, false, false, false] false
      = [true, true, true, false, false, false, false, false, false, false] from by decide]
  rw [show ringMajority [true, true, true, false, false, false, false, false, false, false] = false from by decide]
  rw [step_silence_rec sp 2 tsp tsl (by
    norm_num [frameDuration, VAD_FRAME_DURATION_MS,
      INITIAL_SILENCE_THRESHOLD])]
  dsimp only
  rw [recState_ring]

/-- Quiet frame 8: the ring now votes silence (silence frame 4). -/
theorem c2_qstep8 (sp : Nat) (tsp tsl : ℚ) :
    processFrame (pfState [true, true, true, false, false, false, false, false, false, false] true sp 3 tsp tsl)
        quietFrame (some false) =
      ((some "silence", (none : Option PauseInfo)),
        pfState [true, true, false, false, false, false, false, false, false, false] true 0 4 tsp
          (tsl + frameDuration)) := by
  rw [pf_quiet]
  rw [show pushRing [true, true, true, false, false, false, false, false, false, false] false
      = [true, true, false, false, false, false, false, false, false, false] from by decide]
  rw [show ringMajority [true, true, false, false, false, false, false, false, false, false] = false from by decide]
  rw [step_silence_rec sp 3 tsp tsl (by
    norm_num [frameDuration, VAD_FRAME_DURATION_MS,
      INITIAL_SILENCE_THRESHOLD])]
  dsimp only
  rw [recState_ring]

/-- Quiet frame 9: the ring now votes silence (silence frame 5). -/
theorem c2_qstep9 (sp : Nat) (tsp tsl : ℚ) :
    processFrame (pfState [true, true, false, false, false, false, false, false, false, false] true sp 4 tsp tsl)
        quietFrame (some false) =
      ((some "silence", (none : Option PauseInfo)),
        pfState [true, false, false, false, false, false, false, false, false, false] true 0 5 tsp
          (tsl + frameDuration)) := by
  rw [pf_quiet]
  rw [show pushRing [true, true, false, false, false, false, false, false, false, false] false
      = [true, false, false, false, false, false, false, false, false, false] from by decide]
  rw [show ringMajority [true, false, false, false, false, false, false, false, false, false] = false from by decide]
  rw [step_silence_rec sp 4 tsp tsl (by
    norm_num [frameDuration, VAD_FRAME_DURATION_MS,
      INITIAL_SILENCE_THRESHOLD])]
  dsimp only
  rw [recState_ring]

/-- Quiet frame 10: the ring now votes silence (silence frame 6). -/
theorem c2_qstep10 (sp : Nat) (tsp tsl : ℚ) :
    processFrame (pfState [true, false, false, false, false, false, false, false, false, false] true sp 5 tsp tsl)
        quietFrame (some false) =
      ((some "silence", (none : Option PauseInfo)),
        pfState [false, false, false, false, false, false, false, false, false, false] true 0 6 tsp
          (tsl + frameDuration)) := by
  rw [pf_quiet]
  rw [show pushRing [true, false, false, false, false, false, false, false, false, false] false
      = [false, false, false, false, false, false, false, false, false, false] from by decide]
  rw [show ringMajority [false, false, false, false, false, false, false, false, false, false] = false from by decide]
  rw [step_silence_rec sp 5 tsp tsl (by
    norm_num [frameDuration, VAD_FRAME_DURATION_MS,
      INITIAL_SILENCE_THRESHOLD])]
  dsimp only
  rw [recState_ring]

/-- Loud frame 1 after the utterance ended: the ring still votes
silence, the idle machine emits nothing. -/
theorem c2_lstep1 (sp sf : Nat) (tsp tsl : ℚ) :
    processFrame (pfState (List.replicate 10 false) false sp sf tsp tsl)
        loudFrame (some true) =
      ((none, (none : Option PauseInfo)),
        pfState [false, false, false, false, false, false, false, false, false, true] false 0 (sf + 1) tsp
          (tsl + frameDuration)) := by
  rw [pf_loud]
  rw [show pushRing (List.replicate 10 false) true
      = [false, false, false, false, false, false, false, false, false, true] from by decide]
  rw [show ringMajority [false, false, false, false, false, false, false, false, false, true] = false from by decide]
  rw [step_silence_idle]
  dsimp only
  rw [recState_ring]

/-- Loud frame 2 after the utterance ended: the ring still votes
silence, the idle machine emits nothing. -/
theorem c2_lstep2 (sp sf : Nat) (tsp tsl : ℚ) :
    processFrame (pfState [false, false, false, false, false, false, false, false, false, true] false sp sf tsp tsl)
        loudFrame (some true) =
      ((none, (none : Option PauseInfo)),
        pfState [false, false, false, false, false, false, false, false, true, true] false 0 (sf + 1) tsp
          (tsl + frameDuration)) := by
  rw [pf_loud]
  rw [show pushRing [false, false, false, false, false, false, false, false, false, true] true
      = [false, false, false, false, false, false, false, false, true, true] from by decide]
  rw [show ringMajority [false, false, false, false, false, false, false, false, true, true] = false from by decide]
  rw [step_silence_idle]
  dsimp only
  rw [recState_ring]

/-- Loud frame 3 after the utterance ended: the ring still votes
silence, the idle machine emits nothing. -/
theorem c2_lstep3 (sp sf : Nat) (tsp tsl : ℚ) :
    processFrame (pfState [false, false, false, false, false, false, false, false, true, true] false sp sf tsp tsl)
        loudFrame (some true) =
      ((none, (none : Option PauseInfo)),
        pfState [false, false, false, false, false, false, false, true, true, true] false 0 (sf + 1) tsp
          (tsl + frameDuration)) := by
  rw [pf_loud]
  rw [show pushRing [false, false, false, false, false, false, false, false, true, true] true
      = [false, false, false, false, false, false, false, true, true, true] from by decide]
  rw [show ringMajority [false, false, false, false, false, false, false, true, true, true] = false from by decide]
  rw [step_silence_idle]
  dsimp only
  rw [recState_ring]

/-- Loud frame 4 after the utterance ended: the ring still votes
silence, the idle machine emits nothing. -/
theorem c2_lstep4 (sp sf : Nat) (tsp tsl : ℚ) :
    processFrame (pfState [false, false, false, false, false, false, false, true, true, true] false sp sf tsp tsl)
        loudFrame (some true) =
      ((none, (none : Option PauseInfo)),
        pfState [false, false, false, false, false, false, true, true, true, true] false 0 (sf + 1) tsp
          (tsl + frameDuration)) := by
  rw [pf_loud]
  rw [show pushRing [false, false, false, false, false, false, false, true, true, true] true
      = [false, false, false, false, false, false, true, true, true, true] from by decide]
  rw [show ringMajority [false, false, false, false, false, false, true, true, true, true] = false from by decide]
  rw [step_silence_idle]
  dsimp only
  rw [recState_ring]

/-- Loud frame 5 after the utterance ended: the ring still votes
silence, the idle machine emits nothing. -/
theorem c2_lstep5 (sp sf : Nat) (tsp tsl : ℚ) :
    processFrame (pfState [false, false, false, false, false, false, true, true, true, true] false sp sf tsp tsl)
        loudFrame (some true) =
      ((none, (none : Option PauseInfo)),
        pfState [false, false, false, false, false, true, true, true, true, true] false 0 (sf + 1) tsp
          (tsl + frameDuration)) := by
  rw [pf_loud]
  rw [show pushRing [false, false, false, false, false, false, true, true, true, true] true
      = [false, false, false, false, false, true, true, true, true, true] from by decide]
  rw [show ringMajority [false, false, false, false, false, true, true, true, true, true] = false from by decide]
  rw [step_silence_idle]
  dsimp only
  rw [recState_ring]

/-- Loud frame 6 after the pause: the majority flips back to speech and the
resuming transition returns `speech_start` — with `pause_info = None`. -/
theorem c2_lstep6 (sp sf : Nat) (tsp tsl : ℚ) :
    processFrame (pfState [false, false, false, false, false, true, true, true, true, true] false sp sf tsp tsl)
        loudFrame (some true) =
      ((some "speech_start", (none : Option PauseInfo)),
        pfState [false, false, false, false, true, true, true, true, true, true] true (sp + 1) 0
          (tsp + frameDuration) tsl) := by
  rw [pf_loud]
  rw [show pushRing [false, false, false, false, false, true, true, true, true, true] true
      = [false, false, false, false, true, true, true, true, true, true] from by decide]
  rw [show ringMajority [false, false, false, false, true, true, true, true, true, true] = true from by decide]
  rw [step_speech_idle]
  dsimp only
  rw [recState_ring]

/-- The first ten quiet frames after a long speech run: four more smoothed
speech frames while the ring drains, then six silence frames. -/
theorem c2_quiet_transition (sp : Nat) (tsp tsl : ℚ) :
    runDetector (pfState (List.replicate 10 true) true sp 0 tsp tsl)
        (List.replicate 10 (quietFrame, some false)) =
      (List.replicate 4 (some "speech_continue", (none : Option PauseInfo)) ++
          List.replicate 6 (some "silence", (none : Option PauseInfo)),
        pfState (List.replicate 10 false) true 0 6
          (tsp + 4 * frameDuration) (tsl + 6 * frameDuration)) := by
  rw [show List.replicate 10 ((quietFrame, some false) :
        List Int × Option Bool)
      = [(quietFrame, some false), (quietFrame, some false), (quietFrame, some false), (quietFrame, some false), (quietFrame, some false), (quietFrame, some false), (quietFrame, some false), (quietFrame, some false), (quietFrame, some false), (quietFrame, some false)] from rfl]
  simp only [runDetector, c2_qstep1, c2_qstep2, c2_qstep3, c2_qstep4,
    c2_qstep5, c2_qstep6, c2_qstep7, c2_qstep8, c2_qstep9, c2_qstep10]
  have e1 : tsp + frameDuration + frameDuration + frameDuration
      + frameDuration = tsp + 4 * frameDuration := by ring
  have e2 : tsl + frameDuration + frameDuration + frameDuration
      + frameDuration + frameDuration + frameDuration
      = tsl + 6 * frameDuration := by ring
  rw [e1, e2]
  rfl

/-- The 51st consecutive smoothed silence frame: 1.53 s of silence with
1.32 s of accumulated speech — the utterance is finalized. -/
theorem c2_qend (tsp tsl : ℚ) (hmin : MIN_SPEECH_DURATION ≤ tsp) :
    processFrame (pfState (List.replicate 10 false) true 0 50 tsp tsl)
        quietFrame (some false) =
      ((some "speech_end", (none : Option PauseInfo)),
        pfState (List.replicate 10 false) false 0 51 tsp
          (tsl + frameDuration)) := by
  rw [pf_quiet]
  rw [show pushRing (List.replicate 10 false) false
      = List.replicate 10 false from by decide]
  rw [show ringMajority (List.replicate 10 false) = false from by decide]
  rw [step_silence_end 0 50 tsp tsl
    (by norm_num [INITIAL_SILENCE_THRESHOLD, frameDuration,
      VAD_FRAME_DURATION_MS])
    (by norm_num [THINKING_PAUSE_THRESHOLD, frameDuration,
      VAD_FRAME_DURATION_MS])
    hmin]
  dsimp only
  rw [recState_ring]

/-- One step of `runDetector`, spelled out. -/
theorem runDetector_cons (d : Detector) (f : List Int) (v : Option Bool)
    (fs : List (List Int × Option Bool)) :
    runDetector d ((f, v) :: fs) =
      ((processFrame d f v).1 :: (runDetector (processFrame d f v).2 fs).1,
        (runDetector (processFrame d f v).2 fs).2) := rfl

/-- `runDetector` on an empty frame list. -/
theorem runDetector_nil (d : Detector) : runDetector d [] = ([], d) := rfl

set_option maxRecDepth 100000 in
/-- C2 counterexample: a concrete 101-call run of `process_frame` in which
an utterance is spoken and finalized (call 95 returns `speech_end`), a
silence gap follows, and speech then resumes — the resuming call returns
`speech_start` with `pause_info = None`, not a `PauseObservation`. -/
theorem resumeTrace_no_pause_observation :
    ((runDetector initDetector resumeTrace).1).get? 94
        = some (some "speech_end", (none : Option PauseInfo)) ∧
    ((runDetector initDetector resumeTrace).1).getLast?
        = some (some "speech_start", (none : Option PauseInfo)) := by
  have hsplit40 : List.replicate 40 ((loudFrame, some true) :
        List Int × Option Bool)
      = (loudFrame, some true) ::
          (List.replicate 9 (loudFrame, some true) ++
            List.replicate 30 (loudFrame, some true)) := by
    rw [← List.replicate_add]
    rfl
  have hsplit55 : List.replicate 55 ((quietFrame, some false) :
        List Int × Option Bool)
      = List.replicate 10 (quietFrame, some false) ++
          (List.replicate 44 (quietFrame, some false) ++
            List.replicate 1 (quietFrame, some false)) := by
    rw [← List.replicate_add, ← List.replicate_add]
  rw [show resumeTrace
      = List.replicate 40 (loudFrame, some true) ++
          (List.replicate 55 (quietFrame, some false) ++
            List.replicate 6 (loudFrame, some true)) from by
    rw [resumeTrace, List.append_assoc]]
  rw [hsplit40, hsplit55, initDetector_pfState, List.cons_append]
  rw [List.append_assoc, List.append_assoc, List.append_assoc]
  rw [runDetector_cons, c2_istep]
  dsimp only
  rw [runDetector_append (List.replicate 9 (loudFrame, some true))]
  rw [run_loud_growth 9 1 (0 + 1) (0 + frameDuration) 0 (by norm_num)
    (by norm_num)]
  dsimp only
  rw [show (1 : Nat) + 9 = 10 from rfl]
  rw [runDetector_append (List.replicate 30 (loudFrame, some true))]
  rw [run_loud_sat 30]
  dsimp only
  rw [runDetector_append (List.replicate 10 (quietFrame, some false))]
  rw [c2_quiet_transition]
  dsimp only
  rw [runDetector_append (List.replicate 44 (quietFrame, some false))]
  rw [run_quiet_rec 44 6
    (0 + frameDuration + ((9 : ℕ) : ℚ) * frameDuration
      + ((30 : ℕ) : ℚ) * frameDuration + 4 * frameDuration)
    (0 + 6 * frameDuration)
    (by norm_num [frameDuration, VAD_FRAME_DURATION_MS,
      INITIAL_SILENCE_THRESHOLD])]
  dsimp only
  rw [show (6 : Nat) + 44 = 50 from rfl]
  rw [show List.replicate 1 ((quietFrame, some false) :
        List Int × Option Bool)
      = [(quietFrame, some false)] from rfl]
  rw [List.singleton_append]
  rw [runDetector_cons]
  rw [c2_qend
    (0 + frameDuration + ((9 : ℕ) : ℚ) * frameDuration
      + ((30 : ℕ) : ℚ) * frameDuration + 4 * frameDuration)
    (0 + 6 * frameDuration + ((44 : ℕ) : ℚ) * frameDuration)
    (by norm_num [MIN_SPEECH_DURATION, frameDuration,
      VAD_FRAME_DURATION_MS])]
  dsimp only
  rw [show List.replicate 6 ((loudFrame, some true) :
        List Int × Option Bool)
      = [(loudFrame, some true), (loudFrame, some true), (loudFrame, some true), (loudFrame, some true), (loudFrame, some true), (loudFrame, some true)] from rfl]
  rw [runDetector_cons, c2_lstep1]
  dsimp only
  rw [runDetector_cons, c2_lstep2]
  dsimp only
  rw [runDetector_cons, c2_lstep3]
  dsimp only
  rw [runDetector_cons, c2_lstep4]
  dsimp only
  rw [runDetector_cons, c2_lstep5]
  dsimp only
  rw [runDetector_cons, c2_lstep6]
  dsimp only
  rw [runDetector_nil]
  dsimp only
  decide

end Shadow
